import Mathlib

/-!
Verification development for the CertiVault repository.

The repository contains three near-identical application variants:
  * `src/unnamed/part_000` (storage key `certivault_pro_v18_final_fix`), called V18 here,
  * `src/index.tsx`        (storage key `certivault_pro_v15_final`),     called V15 here,
  * `src/unnamed/part_001` (storage key `certivault_pro_v4_tags_search`), called V4 here.

Each relevant source function is shallow-embedded below as a pure, executable Lean
definition, translated directly from the TypeScript source.  JavaScript `Date`
parsing is modelled as strict ISO `YYYY-MM-DD` parsing (matching the documented
input format of the `date` field); other strings are treated as unparseable, and
the local time zone is identified with UTC.  JavaScript `NaN` propagation in the
V4 classifier is modelled by its observable result: `getFullYear()` of an invalid
date is `NaN`, `NaN >= 6` is `false`, and the template literal renders `"NaN-NaN"`.
-/

namespace CertiVault

/-- Value of a decimal digit character. -/
def digitVal (c : Char) : Nat := c.toNat - '0'.toNat

/-- Decimal number denoted by a list of digit characters. -/
def digitsToNat (l : List Char) : Nat := l.foldl (fun a c => 10 * a + digitVal c) 0

/-- Gregorian leap-year test, as used by JavaScript `Date`. -/
def isLeap (y : Nat) : Bool := (y % 4 == 0 && y % 100 != 0) || y % 400 == 0

/-- Days in a (1-based) month of a Gregorian year. -/
def daysInMonth (y m : Nat) : Nat :=
  if m == 2 then (if isLeap y then 29 else 28)
  else if m == 4 || m == 6 || m == 9 || m == 11 then 30
  else 31

/-- Model of JavaScript `new Date(s)` on the ISO form `YYYY-MM-DD`: returns
`some (fullYear, zeroBasedMonth)` exactly when the string is a valid calendar
date in that form, `none` otherwise (the invalid-`Date` case). -/
def jsParseDate (s : String) : Option (Nat × Nat) :=
  match s.toList with
  | [y1, y2, y3, y4, '-', m1, m2, '-', d1, d2] =>
    if [y1, y2, y3, y4, m1, m2, d1, d2].all Char.isDigit then
      let y := digitsToNat [y1, y2, y3, y4]
      let m := digitsToNat [m1, m2]
      let d := digitsToNat [d1, d2]
      if 1 ≤ m && m ≤ 12 && 1 ≤ d && d ≤ daysInMonth y m then some (y, m - 1) else none
    else none
  | _ => none

/-- The string `"A-B"` for integers `A`, `B`; the shape of the academic-year
labels produced by the template literals in all three variants. -/
def yearLabel (a b : Int) : String := toString a ++ "-" ++ toString b

/-- `getAcademicYear` of V18 (`src/unnamed/part_000`, lines 79-86): empty or
invalid dates yield `"Unknown Year"`, otherwise the cycle boundary is month
index 3 (an April start). -/
def getAcademicYear_v18 (dateStr : String) : String :=
  if dateStr = "" then "Unknown Year"
  else
    match jsParseDate dateStr with
    | none => "Unknown Year"
    | some (year, month) =>
      if month ≥ 3 then yearLabel year ((year : Int) + 1)
      else yearLabel ((year : Int) - 1) year

/-- Model of the regular-expression match `dateStr.match(/\d{4}/)` used by the
V15 classifier: the first run of four consecutive digit characters, as a number. -/
def matchFourDigits : List Char → Option Nat
  | c1 :: c2 :: c3 :: c4 :: rest =>
    if c1.isDigit && c2.isDigit && c3.isDigit && c4.isDigit then
      some (digitsToNat [c1, c2, c3, c4])
    else matchFourDigits (c2 :: c3 :: c4 :: rest)
  | _ => none

/-- `getAcademicYear` of V15 (`src/index.tsx`, lines 78-99): like V18 with an
April boundary, but an unparseable non-empty date string falls back to the
first four-digit run `y` and yields the label `y-(y+1)`; only when no such run
exists does it return `"Unknown Year"`. -/
def getAcademicYear_v15 (dateStr : String) : String :=
  if dateStr = "" then "Unknown Year"
  else
    match jsParseDate dateStr with
    | none =>
      match matchFourDigits dateStr.toList with
      | some y => yearLabel y ((y : Int) + 1)
      | none => "Unknown Year"
    | some (year, month) =>
      if month ≥ 3 then yearLabel year ((year : Int) + 1)
      else yearLabel ((year : Int) - 1) year

/-- `getAcademicYear` of V4 (`src/unnamed/part_001`, lines 103-114): a July
boundary (month index 6) and no invalid-date guard at all.  On an unparseable
non-empty string, `getFullYear()`/`getMonth()` are `NaN`, `NaN >= 6` is false,
and the template literal renders `"NaN-NaN"`. -/
def getAcademicYear_v4 (dateStr : String) : String :=
  if dateStr = "" then "Unknown Year"
  else
    match jsParseDate dateStr with
    | none => "NaN-NaN"
    | some (year, month) =>
      if month ≥ 6 then yearLabel year ((year : Int) + 1)
      else yearLabel ((year : Int) - 1) year

/-! ## Categories

`Array.from(new Set(xs))` keeps the first occurrence of each element, in order;
`jsSetDedup` models it.  V15 and V4 build their category list by plain
concatenation; V18 deduplicates through a `Set`.  V4 guards insertion of a
custom category against the current list; the V15 add-category dialog only
checks that the trimmed input is non-empty. -/

/-- Whitespace test used by the model of `String.prototype.trim`. -/
def isWSp (c : Char) : Bool := c == ' ' || c == '\t' || c == '\n' || c == '\r'

/-- Model of JavaScript `s.trim()`: leading and trailing whitespace removed. -/
def jsTrim (s : String) : String :=
  String.mk (((s.toList.dropWhile isWSp).reverse.dropWhile isWSp).reverse)

/-- Iteration of `Set` insertion: elements already seen are skipped. -/
def jsSetDedupAux (seen : List String) : List String → List String
  | [] => []
  | x :: xs =>
    if seen.contains x then jsSetDedupAux seen xs
    else x :: jsSetDedupAux (seen ++ [x]) xs

/-- Model of `Array.from(new Set(l))`: first occurrence of each element kept. -/
def jsSetDedup (l : List String) : List String := jsSetDedupAux [] l

/-- `BASE_CATEGORIES` of V18 (`src/unnamed/part_000`, line 41). -/
def BASE_CATEGORIES_v18 : List String :=
  ["Academics", "Sports", "Arts", "Competitions", "Workshops", "Other"]

/-- `BASE_CATEGORIES` of V15 and V4 (`src/index.tsx` line 40, `src/unnamed/part_001` line 90). -/
def BASE_CATEGORIES_v15 : List String :=
  ["Competitions", "Academics", "Sports", "Arts", "Workshops", "Volunteering", "Other"]

/-- `categoriesList` of V18 (`src/unnamed/part_000`, lines 173-175):
`Array.from(new Set([...BASE_CATEGORIES, ...customCategories]))`. -/
def categoriesList_v18 (customCategories : List String) : List String :=
  jsSetDedup (BASE_CATEGORIES_v18 ++ customCategories)

/-- `categoriesList` of V15 (`src/index.tsx`, line 202): plain concatenation,
no deduplication. -/
def categoriesList_v15 (customCategories : List String) : List String :=
  BASE_CATEGORIES_v15 ++ customCategories

/-- `categoriesList` of V4 (`src/unnamed/part_001`, line 204): plain concatenation. -/
def categoriesList_v4 (customCategories : List String) : List String :=
  BASE_CATEGORIES_v15 ++ customCategories

/-- The add-category action of the V15 dialog (`src/index.tsx`, lines 706-707):
if the trimmed input is non-empty it is appended to `customCategories`, with no
check against already-present names. -/
def handleAddCategory_v15 (customCategories : List String) (input : String) : List String :=
  let val := jsTrim input
  if val != "" then customCategories ++ [val] else customCategories

/-- `handleCreateCustomCategory` of V4 (`src/unnamed/part_001`, lines 282-292):
the trimmed name is appended only when non-empty and not already in
`categoriesList`. -/
def handleCreateCustomCategory_v4 (customCategories : List String) (input : String) :
    List String :=
  let name := jsTrim input
  if name != "" && !(categoriesList_v4 customCategories).contains name then
    customCategories ++ [name]
  else customCategories

/-! ## Escaping of Drive query strings

`findOrCreateFolder` of V18 (`src/unnamed/part_000`, lines 250-265) builds the
Drive search query consisting of a name clause (the folder name, with each
quote replaced by backslash-quote, inside a quoted literal), the fixed
mime-type and trashed clauses, and a parent clause holding the parent id in a
quoted literal.  The query is modelled
over `List Char`.  The remote query grammar is modelled minimally, following the
specification: a single quote delimits a string literal, a backslash that
immediately precedes a quote makes that quote part of the literal, and every
other character (including a lone backslash) stands for itself. -/

/-- The single-quote character. -/
def sq : Char := '\''

/-- The backslash character. -/
def bsl : Char := '\\'

/-- Model of the replacement of every quote by backslash-quote performed on
the folder name before it is spliced into the query; all other characters pass
through. -/
def escapeQuotes : List Char → List Char
  | [] => []
  | c :: cs => if c = sq then bsl :: sq :: escapeQuotes cs else c :: escapeQuotes cs

/-- The fixed middle part of the query between the name literal and the parent
literal (the closing quote of each literal is handled by the literal scanner). -/
def queryMid : List Char :=
  " and mimeType = ".toList ++ [sq] ++ "application/vnd.google-apps.folder".toList
    ++ [sq] ++ " and trashed = false and ".toList ++ [sq]

/-- The query built by `findOrCreateFolder` for a folder `name` under parent
`parentId` (the `parentId`-present case of the template literal). -/
def buildQuery (name : List Char) (parentId : List Char) : List Char :=
  "name = ".toList ++ [sq] ++ escapeQuotes name ++ [sq] ++ queryMid ++ parentId
    ++ [sq] ++ " in parents".toList

/-- Scanner for a string literal of the remote query language, starting just
after the opening quote: returns the literal content and the remaining input.
A backslash directly before a quote escapes that quote; an unescaped quote
terminates the literal. -/
def scanLit : List Char → Option (List Char × List Char)
  | [] => none
  | [c] => if c = sq then some ([], []) else none
  | c :: c2 :: cs =>
    if c = sq then some ([], c2 :: cs)
    else if c = bsl ∧ c2 = sq then
      match scanLit cs with
      | some (l, r) => some (sq :: l, r)
      | none => none
    else
      match scanLit (c2 :: cs) with
      | some (l, r) => some (c :: l, r)
      | none => none

/-- Strips the exact pattern `pat` from the front of `s`. -/
def takeAfter : List Char → List Char → Option (List Char)
  | [], s => some s
  | _ :: _, [] => none
  | p :: ps, c :: cs => if p = c then takeAfter ps cs else none

/-- The remote side of the query: recovers the folder name and the parent id
from a query string, or `none` when the query does not have the intended shape
(a corrupted filter). -/
def parseQuery (q : List Char) : Option (List Char × List Char) :=
  match takeAfter ("name = ".toList ++ [sq]) q with
  | none => none
  | some r1 =>
    match scanLit r1 with
    | none => none
    | some (name, r2) =>
      match takeAfter queryMid r2 with
      | none => none
      | some r3 =>
        match scanLit r3 with
        | none => none
        | some (pid, r4) =>
          if r4 = " in parents".toList then some (name, pid) else none

/-- The `parents` field of the folder-creation request body in
`findOrCreateFolder`: `parentId ? [parentId] : []`. -/
def createParents (parentId : Option String) : List String :=
  match parentId with
  | some p => [p]
  | none => []

/-! ## Data model -/

/-- A profile, common to all three variants. -/
structure Profile where
  id : String
  name : String
deriving DecidableEq

/-- The `Certificate` record of V18 (`src/unnamed/part_000`, lines 58-70).
The optional TypeScript field `synced?: boolean` is modelled as a `Bool`
(absent treated as `false`, matching the `!c.synced` uses). -/
structure CertV18 where
  id : String
  image : String
  profileId : String
  studentName : String
  title : String
  issuer : String
  date : String
  category : String
  summary : String
  createdAt : Nat
  synced : Bool := false
deriving DecidableEq

/-- The `Certificate` record of V15 (`src/index.tsx`, lines 48-62). -/
structure CertV15 where
  id : String
  image : String
  originalImage : Option String := none
  profileId : String
  studentName : String
  title : String
  issuer : String
  date : String
  category : String
  subject : String
  summary : String
  createdAt : Nat
  synced : Bool := false
deriving DecidableEq

/-- The `Certificate` record of V4 (`src/unnamed/part_001`, lines 56-71). -/
structure CertV4 where
  id : String
  image : String
  originalImage : Option String := none
  profileId : String
  studentName : String
  title : String
  issuer : String
  date : String
  category : String
  subject : String
  summary : String
  tags : List String
  createdAt : Nat
  synced : Bool := false
deriving DecidableEq

/-- Log entry statuses of the `SyncLog` interface. -/
inductive LogStatus where
  | pending
  | success
  | info
deriving DecidableEq

/-- A sync-log entry (the `id` field of the source, drawn from `Math.random()`,
is observationally irrelevant and omitted). -/
structure SyncLogE where
  message : String
  status : LogStatus
deriving DecidableEq

/-! ## The V18 Sync Engine (`src/unnamed/part_000`, lines 234-323)

This is the only variant that issues real remote calls.  The remote hierarchy
store is a list of folders; `findOrCreateFolder` searches it for a non-trashed
folder with the given name under the given parent and creates one when absent.
The network environment is a `DriveEnv`: `signedIn` models the presence of the
access token, and `folderOk`/`uploadOk` decide which remote operations succeed
(a `false` models the thrown `Drive API failed` / `Upload failed` errors).
Remote traffic is recorded as a trace of `RemoteCall` events; a call that the
environment fails is not recorded. -/

/-- One remote call issued by the engine.  A logical `findOrCreateFolder`
records a `findFolder` event and, when the search comes back empty, an
additional `createFolder` event. -/
inductive RemoteCall where
  | findFolder (name : String) (parent : Option String)
  | createFolder (name : String) (parent : Option String)
  | upload (certId : String) (folderId : String)
deriving DecidableEq

/-- A folder of the remote hierarchy store. -/
structure Folder where
  id : String
  name : String
  parent : Option String
deriving DecidableEq

/-- The network environment of a sync invocation. -/
structure DriveEnv where
  signedIn : Bool
  folderOk : String → Option String → Bool
  uploadOk : String → Bool

/-- Search of the remote store for a folder with the given name under the given
parent (the first match, as returned by `list.files[0]`). -/
def folderLookup (name : String) (parent : Option String) (fs : List Folder) : Option Folder :=
  fs.find? (fun f => f.name == name && f.parent == parent)

/-- Identifier assigned to a newly created folder. -/
def mkFolderId (parent : Option String) (name : String) : String :=
  (match parent with | none => "root" | some p => p) ++ "/" ++ name

/-- `findOrCreateFolder` of V18: on success, returns the folder id, the updated
store and the recorded remote calls; `none` models the thrown Drive API error. -/
def findOrCreateFolder (env : DriveEnv) (name : String) (parent : Option String)
    (fs : List Folder) : Option (String × List Folder × List RemoteCall) :=
  if env.folderOk name parent then
    match folderLookup name parent fs with
    | some f => some (f.id, fs, [RemoteCall.findFolder name parent])
    | none =>
      let f : Folder := ⟨mkFolderId parent name, name, parent⟩
      some (f.id, fs ++ [f], [RemoteCall.findFolder name parent, RemoteCall.createFolder name parent])
  else none

/-- The `setCertificates(prev => prev.map(c => c.id === cert.id ? { ...c, synced: true } : c))`
update of V18 (line 314). -/
def markSyncedV18 (certId : String) (certs : List CertV18) : List CertV18 :=
  certs.map (fun c => if c.id == certId then { c with synced := true } else c)

/-- Result of a V18 sync invocation: final certificate collection, remote
store, call trace, the sequence of `setProcessStatus` messages, and the
`setError` message if the batch threw. -/
structure SyncResultV18 where
  certs : List CertV18
  folders : List Folder
  calls : List RemoteCall
  statuses : List String
  errorMsg : Option String
deriving DecidableEq

/-- The per-record loop of `syncToDrive` in V18 (lines 305-315).  Records are
processed strictly sequentially; the whole loop sits inside one `try`, so the
first folder or upload failure aborts the remaining batch with a single
`setError` message.  PDF rendering (`generatePDFBlob`) is an external
collaborator and is not modelled. -/
def syncLoopV18 (env : DriveEnv) (profileFolderId : String) :
    List CertV18 → List CertV18 → List Folder → List RemoteCall → List String → SyncResultV18
  | [], certs, fs, calls, sts =>
    ⟨certs, fs, calls, sts ++ ["Sync Successful!"], none⟩
  | cert :: rest, certs, fs, calls, sts =>
    let sts := sts ++ ["Vaulting: " ++ cert.title ++ "..."]
    match findOrCreateFolder env (getAcademicYear_v18 cert.date) (some profileFolderId) fs with
    | none => ⟨certs, fs, calls, sts, some "Sync failed: Drive API failed"⟩
    | some (yearId, fs1, cs1) =>
      match findOrCreateFolder env cert.category (some yearId) fs1 with
      | none => ⟨certs, fs1, calls ++ cs1, sts, some "Sync failed: Drive API failed"⟩
      | some (catId, fs2, cs2) =>
        let calls := calls ++ cs1 ++ cs2 ++ [RemoteCall.upload cert.id catId]
        if env.uploadOk cert.id then
          syncLoopV18 env profileFolderId rest (markSyncedV18 cert.id certs) fs2 calls sts
        else
          ⟨certs, fs2, calls, sts, some "Sync failed: Upload failed"⟩

/-- `syncToDrive` of V18 (lines 287-323): precondition checks, root
establishment (`CertiVault`, then the profile folder), work-set selection
(`profileId` matches and not `synced`), early exit when the work-set is empty,
otherwise the sequential per-record loop. -/
def syncToDrive_v18 (env : DriveEnv) (profiles : List Profile) (activeProfileId : String)
    (certs : List CertV18) (fs : List Folder) : SyncResultV18 :=
  if !env.signedIn then ⟨certs, fs, [], [], none⟩
  else
    match profiles.find? (fun p => p.id == activeProfileId) with
    | none => ⟨certs, fs, [], [], some "No active profile selected."⟩
    | some profile =>
      let sts := ["Mirroring Vault to Cloud..."]
      match findOrCreateFolder env "CertiVault" none fs with
      | none => ⟨certs, fs, [], sts, some "Sync failed: Drive API failed"⟩
      | some (rootId, fs1, cs1) =>
        match findOrCreateFolder env profile.name (some rootId) fs1 with
        | none => ⟨certs, fs1, cs1, sts, some "Sync failed: Drive API failed"⟩
        | some (profileFolderId, fs2, cs2) =>
          let profileCerts := certs.filter (fun c => c.profileId == activeProfileId && !c.synced)
          if profileCerts.isEmpty then
            ⟨certs, fs2, cs1 ++ cs2, sts ++ ["Vault already in sync!"], none⟩
          else
            syncLoopV18 env profileFolderId profileCerts certs fs2 (cs1 ++ cs2) sts

/-! ## The V15 Sync Engine (`src/index.tsx`, lines 393-434)

V15 simulates the Drive mirroring: it emits hierarchical log entries and marks
records synced, but issues no remote calls.  Its selection at line 407 keeps
every certificate of the active profile, without excluding already-synced ones,
and there is no empty-work-set early exit. -/

/-- The selection `certificates.filter(c => c.profileId === activeProfileId)`
at line 407 of `src/index.tsx` — the work-set actually processed by the V15
sync loop. -/
def workSet_v15 (certs : List CertV15) (activeProfileId : String) : List CertV15 :=
  certs.filter (fun c => c.profileId == activeProfileId)

/-- The per-certificate `setCertificates` update of V15 (line 427). -/
def markSyncedV15 (certId : String) (certs : List CertV15) : List CertV15 :=
  certs.map (fun c => if c.id == certId then { c with synced := true } else c)

/-- Result of a V15 or V4 sync invocation over certificates of type `σ`. -/
structure SimSyncResult (σ : Type) where
  certs : List σ
  logs : List SyncLogE
deriving DecidableEq

/-- The innermost loop of V15 `syncToDrive` (lines 424-428): one log entry and
one synced-mark per certificate of the current category group. -/
def itemLoopV15 (items : List CertV15) (certs : List CertV15) (logs : List SyncLogE) :
    List CertV15 × List SyncLogE :=
  items.foldl
    (fun st cert =>
      (markSyncedV15 cert.id st.1,
       st.2 ++ [⟨"    * Uploading \"" ++ cert.title ++ ".pdf\"", LogStatus.pending⟩]))
    (certs, logs)

/-- The category loop of V15 `syncToDrive` (lines 418-429). -/
def catLoopV15 (yearCerts : List CertV15) (cats : List String)
    (certs : List CertV15) (logs : List SyncLogE) : List CertV15 × List SyncLogE :=
  cats.foldl
    (fun st cat =>
      let logs := st.2 ++ [⟨"  > Syncing category: " ++ cat, LogStatus.pending⟩,
                           ⟨"  > Folder " ++ cat ++ " established.", LogStatus.success⟩]
      itemLoopV15 (yearCerts.filter (fun c => c.category == cat)) st.1 logs)
    (certs, logs)

/-- The year loop of V15 `syncToDrive` (lines 410-430). -/
def yearLoopV15 (profileCerts : List CertV15) (years : List String)
    (certs : List CertV15) (logs : List SyncLogE) : List CertV15 × List SyncLogE :=
  years.foldl
    (fun st year =>
      let logs := st.2 ++ [⟨"Creating year folder: " ++ year, LogStatus.pending⟩,
                           ⟨"Folder " ++ year ++ " ready.", LogStatus.success⟩]
      let yearCerts := profileCerts.filter (fun c => getAcademicYear_v15 c.date == year)
      catLoopV15 yearCerts (jsSetDedup (yearCerts.map (fun c => c.category))) st.1 logs)
    (certs, logs)

/-- `syncToDrive` of V15 (`src/index.tsx`, lines 393-434). -/
def syncToDrive_v15 (profiles : List Profile) (activeProfileId : String)
    (certs : List CertV15) : SimSyncResult CertV15 :=
  match profiles.find? (fun p => p.id == activeProfileId) with
  | none => ⟨certs, []⟩
  | some activeProfile =>
    let logs : List SyncLogE :=
      [⟨"Initializing Google Drive Sync for Profile: " ++ activeProfile.name, LogStatus.info⟩,
       ⟨"Creating hierarchy: Drive > CertiVault > " ++ activeProfile.name, LogStatus.pending⟩,
       ⟨"Root folder established.", LogStatus.success⟩]
    let profileCerts := workSet_v15 certs activeProfileId
    let years := jsSetDedup (profileCerts.map (fun c => getAcademicYear_v15 c.date))
    let st := yearLoopV15 profileCerts years certs logs
    ⟨st.1, st.2 ++ [⟨"Profile \"" ++ activeProfile.name ++ "\" fully mirrored on Google Drive.",
                     LogStatus.success⟩]⟩

/-! ## The V4 Sync Engine (`src/unnamed/part_001`, lines 578-655)

Also simulated, but with the work-set restricted to unsynced records of the
active profile and an explicit "already up to date" early exit. -/

/-- The per-certificate `setCertificates` update of V4 (line 629). -/
def markSyncedV4 (certId : String) (certs : List CertV4) : List CertV4 :=
  certs.map (fun c => if c.id == certId then { c with synced := true } else c)

/-- The innermost loop of V4 `syncToDrive` (lines 623-630). -/
def itemLoopV4 (year cat : String) (items : List CertV4) (certs : List CertV4)
    (logs : List SyncLogE) : List CertV4 × List SyncLogE :=
  items.foldl
    (fun st item =>
      (markSyncedV4 item.id st.1,
       st.2 ++ [⟨"Uploading: " ++ item.title ++ ".pdf", LogStatus.pending⟩,
                ⟨"Success: " ++ item.title ++ " stored in /" ++ year ++ "/" ++ cat,
                 LogStatus.success⟩]))
    (certs, logs)

/-- The category loop of V4 `syncToDrive` (lines 617-631). -/
def catLoopV4 (profileName year : String) (yearCerts : List CertV4) (cats : List String)
    (certs : List CertV4) (logs : List SyncLogE) : List CertV4 × List SyncLogE :=
  cats.foldl
    (fun st cat =>
      let logs := st.2 ++
        [⟨"Verifying Subfolder: /" ++ profileName ++ "/" ++ year ++ "/" ++ cat ++ "...",
          LogStatus.pending⟩,
         ⟨"Created Subfolder: " ++ cat, LogStatus.success⟩]
      itemLoopV4 year cat (yearCerts.filter (fun c => c.category == cat)) st.1 logs)
    (certs, logs)

/-- The year loop of V4 `syncToDrive` (lines 609-632). -/
def yearLoopV4 (profileName : String) (profileCerts : List CertV4) (years : List String)
    (certs : List CertV4) (logs : List SyncLogE) : List CertV4 × List SyncLogE :=
  years.foldl
    (fun st year =>
      let logs := st.2 ++
        [⟨"Verifying Folder Structure: /" ++ profileName ++ "/" ++ year ++ "...",
          LogStatus.pending⟩,
         ⟨"Created Folder: " ++ year, LogStatus.success⟩]
      let yearCerts := profileCerts.filter (fun c => getAcademicYear_v4 c.date == year)
      catLoopV4 profileName year yearCerts
        (jsSetDedup (yearCerts.map (fun c => c.category))) st.1 logs)
    (certs, logs)

/-- `syncToDrive` of V4 (`src/unnamed/part_001`, lines 578-641). -/
def syncToDrive_v4 (profiles : List Profile) (activeProfileId : String)
    (certs : List CertV4) : SimSyncResult CertV4 :=
  match profiles.find? (fun p => p.id == activeProfileId) with
  | none => ⟨certs, []⟩
  | some profile =>
    let logs : List SyncLogE :=
      [⟨"Initializing Google Drive Sync for Profile: " ++ profile.name, LogStatus.info⟩,
       ⟨"Connecting to Drive API...", LogStatus.pending⟩]
    let profileCerts := certs.filter (fun c => c.profileId == activeProfileId && !c.synced)
    if profileCerts.isEmpty then
      ⟨certs, logs ++ [⟨"Vault is already up to date.", LogStatus.success⟩]⟩
    else
      let logs := logs ++
        [⟨"Found " ++ toString profileCerts.length ++ " unsynced items.", LogStatus.info⟩]
      let years := jsSetDedup (profileCerts.map (fun c => getAcademicYear_v4 c.date))
      let st := yearLoopV4 profile.name profileCerts years certs logs
      ⟨st.1, st.2 ++ [⟨"Sync Complete! Your structure is mirrored on Google Drive.",
                       LogStatus.success⟩]⟩

/-- `syncSingleItem` of V4 (`src/unnamed/part_001`, lines 643-655): emits two
log entries, marks the given certificate synced, then appends a success entry. -/
def syncSingleItem_v4 (cert : CertV4) (certs : List CertV4) : SimSyncResult CertV4 :=
  ⟨markSyncedV4 cert.id certs,
   [⟨"Syncing " ++ cert.title ++ " to Drive...", LogStatus.pending⟩,
    ⟨"Creating Path: /" ++ getAcademicYear_v4 cert.date ++ "/" ++ cert.category,
     LogStatus.pending⟩,
    ⟨"Success! Item stored in hierarchical path.", LogStatus.success⟩]⟩

/-! ## Filtering (`src/unnamed/part_001` lines 670-697, `src/index.tsx` lines 436-446)

String search uses JavaScript `toLowerCase` + `includes`; both are modelled over
ASCII via `Char.toLower` and a substring test. -/

/-- `a.toLowerCase()`, modelled character-wise (all inputs of interest are ASCII). -/
def jsLower (s : String) : String := String.mk (s.toList.map Char.toLower)

/-- Whether `pat` occurs at the start of `l`. -/
def startsAt : List Char → List Char → Bool
  | [], _ => true
  | _ :: _, [] => false
  | p :: ps, c :: cs => p == c && startsAt ps cs

/-- Model of JavaScript `hay.includes(sub)` on character lists. -/
def hasSub (sub : List Char) : List Char → Bool
  | [] => startsAt sub []
  | c :: cs => startsAt sub (c :: cs) || hasSub sub cs

/-- Model of `hay.toLowerCase().includes(q)` where `q` is already lowercase. -/
def lowerIncludes (hay q : String) : Bool := hasSub q.toList (jsLower hay).toList

/-- `filteredCerts` of V4 (`src/unnamed/part_001`, lines 670-697): restrict to
the active profile, then (when the trimmed search query is non-empty) to
records matching the lowercased query, then (when filter tags are selected) to
records where some selected tag equals the academic year, equals the category,
or occurs in the tag list. -/
def filteredCerts_v4 (certs : List CertV4) (activeProfileId searchQuery : String)
    (selectedFilterTags : List String) : List CertV4 :=
  let result := certs.filter (fun c => c.profileId == activeProfileId)
  let result :=
    if jsTrim searchQuery != "" then
      let q := jsLower searchQuery
      result.filter (fun c =>
        lowerIncludes c.title q || lowerIncludes c.issuer q ||
        lowerIncludes c.studentName q || c.tags.any (fun t => lowerIncludes t q) ||
        lowerIncludes (getAcademicYear_v4 c.date) q || lowerIncludes c.category q)
    else result
  if selectedFilterTags.length > 0 then
    result.filter (fun c =>
      let ay := getAcademicYear_v4 c.date
      selectedFilterTags.any (fun tag => tag == ay || tag == c.category || c.tags.contains tag))
  else result

/-- `filteredCerts` of V15 (`src/index.tsx`, lines 436-446). -/
def filteredCerts_v15 (certs : List CertV15) (activeProfileId searchQuery : String)
    (selectedFilterTags : List String) : List CertV15 :=
  let res := certs.filter (fun c => c.profileId == activeProfileId)
  let res :=
    if jsTrim searchQuery != "" then
      let q := jsLower searchQuery
      res.filter (fun c =>
        lowerIncludes c.title q || lowerIncludes c.issuer q ||
        lowerIncludes c.studentName q || lowerIncludes c.subject q)
    else res
  if selectedFilterTags.length > 0 then
    res.filter (fun c =>
      selectedFilterTags.contains c.category ||
      selectedFilterTags.contains (getAcademicYear_v15 c.date))
  else res

/-! ## Basic lemmas -/

theorem jsParseDate_empty : jsParseDate "" = none := rfl

theorem getAcademicYear_v18_of_parse_none {s : String} (h : jsParseDate s = none) :
    getAcademicYear_v18 s = "Unknown Year" := by
  unfold getAcademicYear_v18
  by_cases hs : s = "" <;> simp [hs, h]

theorem getAcademicYear_v15_of_parse_none {s : String}
    (h : jsParseDate s = none) (h4 : matchFourDigits s.toList = none) :
    getAcademicYear_v15 s = "Unknown Year" := by
  have h4' : matchFourDigits s.data = none := h4
  unfold getAcademicYear_v15
  by_cases hs : s = "" <;> simp [hs, h, h4']

theorem matchFourDigits_ne_empty {s : String} {y : Nat}
    (h : matchFourDigits s.toList = some y) : s ≠ "" := by
  intro hs
  rw [hs] at h
  simp [matchFourDigits, String.toList] at h

theorem getAcademicYear_v15_fallback {s : String} {y : Nat}
    (h : jsParseDate s = none) (h4 : matchFourDigits s.toList = some y) :
    getAcademicYear_v15 s = yearLabel y ((y : Int) + 1) := by
  have h4' : matchFourDigits s.data = some y := h4
  unfold getAcademicYear_v15
  simp [matchFourDigits_ne_empty h4, h, h4']

theorem getAcademicYear_v4_of_parse_none {s : String} (hs : s ≠ "")
    (h : jsParseDate s = none) : getAcademicYear_v4 s = "NaN-NaN" := by
  unfold getAcademicYear_v4
  simp [hs, h]

theorem parse_some_ne_empty {s : String} {y m : Nat}
    (h : jsParseDate s = some (y, m)) : s ≠ "" := by
  intro hs
  rw [hs, jsParseDate_empty] at h
  exact Option.noConfusion h

theorem getAcademicYear_v18_of_parse {s : String} {y m : Nat}
    (h : jsParseDate s = some (y, m)) :
    getAcademicYear_v18 s =
      if m ≥ 3 then yearLabel y ((y : Int) + 1) else yearLabel ((y : Int) - 1) y := by
  unfold getAcademicYear_v18
  simp [parse_some_ne_empty h, h]

theorem getAcademicYear_v15_of_parse {s : String} {y m : Nat}
    (h : jsParseDate s = some (y, m)) :
    getAcademicYear_v15 s =
      if m ≥ 3 then yearLabel y ((y : Int) + 1) else yearLabel ((y : Int) - 1) y := by
  unfold getAcademicYear_v15
  simp [parse_some_ne_empty h, h]

theorem getAcademicYear_v4_of_parse {s : String} {y m : Nat}
    (h : jsParseDate s = some (y, m)) :
    getAcademicYear_v4 s =
      if m ≥ 6 then yearLabel y ((y : Int) + 1) else yearLabel ((y : Int) - 1) y := by
  unfold getAcademicYear_v4
  simp [parse_some_ne_empty h, h]

/-! ## Claim C5 -/

/-- C5, counterexample.  The claim states that every variant of the
classifier maps every empty or unparseable date string to `"Unknown Year"`.
The V4 variant (`src/unnamed/part_001`, lines 103-114) has no invalid-date
guard: on the unparseable input `"hello"` it produces the label `"NaN-NaN"`,
and the V15 variant maps the unparseable input `"circa 2019"` to
`"2019-2020"` via its four-digit fallback — not to the sentinel. -/
theorem c5_unknown_year_counterexample :
    getAcademicYear_v4 "hello" = "NaN-NaN" ∧
    getAcademicYear_v4 "hello" ≠ "Unknown Year" ∧
    getAcademicYear_v15 "circa 2019" = "2019-2020" := by
  refine ⟨by decide, by decide, by decide⟩

/-- C5, amended.  Every variant of the classifier is total (it is a total
Lean function; no exceptional behaviour exists in the embedding).  The
sentinel behaviour differs per variant: V18 returns `"Unknown Year"` for the
empty string and for every unparseable string; V15 returns it for the empty
string and for unparseable strings containing no run of four digits, while an
unparseable string with a four-digit run `y` yields `y-(y+1)`; V4 returns the
sentinel only for the empty string and returns `"NaN-NaN"` for every other
unparseable string. -/
theorem c5_classifier_sentinel_behaviour :
    (getAcademicYear_v18 "" = "Unknown Year") ∧
    (∀ s : String, jsParseDate s = none → getAcademicYear_v18 s = "Unknown Year") ∧
    (getAcademicYear_v15 "" = "Unknown Year") ∧
    (∀ s : String, jsParseDate s = none → matchFourDigits s.toList = none →
      getAcademicYear_v15 s = "Unknown Year") ∧
    (∀ (s : String) (y : Nat), jsParseDate s = none → matchFourDigits s.toList = some y →
      getAcademicYear_v15 s = yearLabel y ((y : Int) + 1)) ∧
    (getAcademicYear_v4 "" = "Unknown Year") ∧
    (∀ s : String, s ≠ "" → jsParseDate s = none → getAcademicYear_v4 s = "NaN-NaN") :=
  ⟨rfl, fun _ h => getAcademicYear_v18_of_parse_none h, rfl,
   fun _ h h4 => getAcademicYear_v15_of_parse_none h h4,
   fun _ _ h h4 => getAcademicYear_v15_fallback h h4, rfl,
   fun _ hs h => getAcademicYear_v4_of_parse_none hs h⟩

/-- C5, witness for the amended theorem at concrete inputs. -/
theorem c5_classifier_sentinel_behaviour_witness :
    getAcademicYear_v18 "not-a-date" = "Unknown Year" ∧
    getAcademicYear_v15 "????" = "Unknown Year" ∧
    getAcademicYear_v4 "hello" = "NaN-NaN" :=
  ⟨c5_classifier_sentinel_behaviour.2.1 "not-a-date" (by decide),
   c5_classifier_sentinel_behaviour.2.2.2.1 "????" (by decide) (by decide),
   c5_classifier_sentinel_behaviour.2.2.2.2.2.2 "hello" (by decide) (by decide)⟩

/-! ## Claim C6 -/

/-- C6.  For every date string that parses to a valid date with calendar
year `Y` and zero-based month `M`, the classifier of each variant returns
`"Y-(Y+1)"` when `M ≥ T` and `"(Y-1)-Y"` when `M < T`, where `T` is the
variant-configured threshold: `T = 3` for V18 and V15, `T = 6` for V4. -/
theorem c6_threshold_classification (s : String) (y m : Nat)
    (h : jsParseDate s = some (y, m)) :
    (m ≥ 3 → getAcademicYear_v18 s = yearLabel y ((y : Int) + 1)) ∧
    (m < 3 → getAcademicYear_v18 s = yearLabel ((y : Int) - 1) y) ∧
    (m ≥ 3 → getAcademicYear_v15 s = yearLabel y ((y : Int) + 1)) ∧
    (m < 3 → getAcademicYear_v15 s = yearLabel ((y : Int) - 1) y) ∧
    (m ≥ 6 → getAcademicYear_v4 s = yearLabel y ((y : Int) + 1)) ∧
    (m < 6 → getAcademicYear_v4 s = yearLabel ((y : Int) - 1) y) := by
  refine ⟨fun hm => ?_, fun hm => ?_, fun hm => ?_, fun hm => ?_, fun hm => ?_, fun hm => ?_⟩
  · rw [getAcademicYear_v18_of_parse h, if_pos hm]
  · rw [getAcademicYear_v18_of_parse h, if_neg (by omega)]
  · rw [getAcademicYear_v15_of_parse h, if_pos hm]
  · rw [getAcademicYear_v15_of_parse h, if_neg (by omega)]
  · rw [getAcademicYear_v4_of_parse h, if_pos hm]
  · rw [getAcademicYear_v4_of_parse h, if_neg (by omega)]

/-- C6, witness: the specification example `classify("2024-05-10") ==
"2024-2025"` under threshold 3, and the same date under the V4 threshold 6. -/
theorem c6_threshold_classification_witness :
    getAcademicYear_v18 "2024-05-10" = "2024-2025" ∧
    getAcademicYear_v4 "2024-05-10" = "2023-2024" := by
  have h := c6_threshold_classification "2024-05-10" 2024 4 (by decide)
  exact ⟨by rw [h.1 (by decide)]; decide, by rw [h.2.2.2.2.2 (by decide)]; decide⟩

/-! ## Claim C8 -/

theorem takeAfter_append (t r : List Char) : takeAfter t (t ++ r) = some r := by
  induction t with
  | nil => rfl
  | cons c cs ih => simp [takeAfter, ih]

theorem scanLit_sq (l : List Char) : scanLit (sq :: l) = some ([], l) := by
  cases l with
  | nil => simp [scanLit]
  | cons d ds => rw [scanLit]; simp

theorem scanLit_bsl_sq (l : List Char) :
    scanLit (bsl :: sq :: l) =
      (match scanLit l with
       | some (a, r) => some (sq :: a, r)
       | none => none) := by
  have h : ¬ (bsl = sq) := by decide
  rw [scanLit]
  simp [h]

theorem scanLit_cons_other {c : Char} (hsq : c ≠ sq) (hbs : c ≠ bsl) (l : List Char) :
    scanLit (c :: l) =
      (match scanLit l with
       | some (a, r) => some (c :: a, r)
       | none => none) := by
  cases l with
  | nil => simp [scanLit, hsq]
  | cons d ds => rw [scanLit]; simp [hsq, hbs]

/-- Scanning the escaped form of a backslash-free name recovers the name and
stops exactly at the closing quote. -/
theorem scanLit_escapeQuotes {name : List Char} (hb : bsl ∉ name) (rest : List Char) :
    scanLit (escapeQuotes name ++ sq :: rest) = some (name, rest) := by
  induction name with
  | nil => simpa [escapeQuotes] using scanLit_sq rest
  | cons c cs ih =>
    have hbc : c ≠ bsl := fun hc => hb (hc ▸ List.mem_cons_self c cs)
    have hbs : bsl ∉ cs := fun hm => hb (List.mem_cons_of_mem c hm)
    by_cases hc : c = sq
    · subst hc
      have he : escapeQuotes (sq :: cs) = bsl :: sq :: escapeQuotes cs := by
        simp [escapeQuotes]
      rw [he, List.cons_append, List.cons_append, scanLit_bsl_sq, ih hbs]
    · simp only [escapeQuotes, if_neg hc, List.cons_append]
      rw [scanLit_cons_other hc hbc, ih hbs]

/-- C8, counterexample.  The claim quantifies over every folder name that
contains a single-quote character.  A name of the shape a-quote-b-backslash (a quote followed later by a
trailing backslash) defeats the quote-only escaping of `findOrCreateFolder`:
the backslash merges with the closing quote of the template, the name literal
swallows part of the fixed query text, and the filter no longer parses —
the built query is corrupted. -/
theorem c8_escaping_counterexample :
    parseQuery (buildQuery ['a', sq, 'b', bsl] ['p', '1']) = none ∧
    sq ∈ ['a', sq, 'b', bsl] := by
  refine ⟨by decide, by decide⟩

/-- C8, amended.  For every folder name that contains no backslash
(quotes, as in the name OBrien with an embedded quote, allowed) and every parent id made of ordinary
characters, the search filter built by `findOrCreateFolder` is not corrupted:
the remote side recovers exactly the original name and exactly the given
parent id, so the search is scoped to `parentId` and not to root; and the
creation request places the folder under the given parent
(`parents: [parentId]`), never under root. -/
theorem c8_escaping_no_backslash (name pid : List Char)
    (hb : bsl ∉ name) (hps : sq ∉ pid) (hpb : bsl ∉ pid) :
    parseQuery (buildQuery name pid) = some (name, pid) ∧
    createParents (some (String.mk pid)) = [String.mk pid] := by
  constructor
  · have hesc : escapeQuotes pid = pid := by
      induction pid with
      | nil => rfl
      | cons c cs ih =>
        have hc : c ≠ sq := fun h => hps (h ▸ List.mem_cons_self c cs)
        simp only [escapeQuotes, if_neg hc]
        rw [ih (fun h => hps (List.mem_cons_of_mem c h))
             (fun h => hpb (List.mem_cons_of_mem c h))]
    have hq : buildQuery name pid =
        ("name = ".toList ++ [sq]) ++ (escapeQuotes name ++ sq ::
          (queryMid ++ (escapeQuotes pid ++ sq :: " in parents".toList))) := by
      unfold buildQuery
      rw [hesc]
      simp
    rw [hq]
    unfold parseQuery
    rw [takeAfter_append]
    simp only [scanLit_escapeQuotes hb, takeAfter_append, scanLit_escapeQuotes hpb]
    simp
  · rfl

/-- C8, witness for the amended theorem at the specification example, the
name OBrien with an embedded quote, with parent id p1. -/
theorem c8_escaping_no_backslash_witness :
    parseQuery (buildQuery ['O', sq, 'B', 'r', 'i', 'e', 'n'] ['p', '1']) =
      some (['O', sq, 'B', 'r', 'i', 'e', 'n'], ['p', '1']) :=
  (c8_escaping_no_backslash ['O', sq, 'B', 'r', 'i', 'e', 'n'] ['p', '1']
    (by decide) (by decide) (by decide)).1

/-! ## Claim C10 -/

theorem not_mem_seen_of_mem_jsSetDedupAux :
    ∀ (l seen : List String) (a : String), a ∈ jsSetDedupAux seen l → a ∉ seen := by
  intro l
  induction l with
  | nil => intro seen a h; simp [jsSetDedupAux] at h
  | cons x xs ih =>
    intro seen a h
    rw [jsSetDedupAux] at h
    by_cases hx : seen.contains x
    · rw [if_pos hx] at h
      exact ih seen a h
    · rw [if_neg hx] at h
      rcases List.mem_cons.1 h with h | h
      · subst h
        intro hmem
        exact hx (List.elem_eq_true_of_mem hmem)
      · intro hmem
        exact ih (seen ++ [x]) a h (List.mem_append_left _ hmem)

theorem jsSetDedupAux_nodup : ∀ (l seen : List String), (jsSetDedupAux seen l).Nodup := by
  intro l
  induction l with
  | nil => intro seen; simp [jsSetDedupAux]
  | cons x xs ih =>
    intro seen
    rw [jsSetDedupAux]
    by_cases hx : seen.contains x
    · rw [if_pos hx]
      exact ih seen
    · rw [if_neg hx]
      refine List.nodup_cons.2 ⟨fun hmem => ?_, ih (seen ++ [x])⟩
      exact not_mem_seen_of_mem_jsSetDedupAux xs (seen ++ [x]) x hmem
        (List.mem_append_right _ (List.mem_singleton.2 rfl))

theorem jsSetDedup_nodup (l : List String) : (jsSetDedup l).Nodup :=
  jsSetDedupAux_nodup l []

/-- C10, counterexample.  In V15, `categoriesList` is a plain
concatenation (`src/index.tsx`, line 202) and the add-category dialog
(lines 706-707) appends any non-empty trimmed input without checking it
against present names: adding the custom category `"Sports"` — already a base
category — produces a displayed list with a repeated name. -/
theorem c10_category_uniqueness_counterexample :
    ¬ (categoriesList_v15 (handleAddCategory_v15 [] "Sports")).Nodup := by
  decide

/-- C10, amended.  Uniqueness of the displayed category list holds in the
other two variants, each by a different mechanism: V18 deduplicates at display
time through `Array.from(new Set(...))`, so its list is duplicate-free for
every custom-category state; V4 guards insertion, so after any sequence of
add-custom-category operations starting from the empty custom list its
displayed list is duplicate-free.  In V15 the displayed list can repeat a name
(see the counterexample). -/
theorem c10_category_uniqueness_amended :
    (∀ customCategories : List String, (categoriesList_v18 customCategories).Nodup) ∧
    (∀ inputs : List String,
      (categoriesList_v4 (inputs.foldl handleCreateCustomCategory_v4 [])).Nodup) := by
  constructor
  · intro custom
    exact jsSetDedup_nodup _
  · intro inputs
    have step : ∀ (custom : List String) (input : String),
        (categoriesList_v4 custom).Nodup →
        (categoriesList_v4 (handleCreateCustomCategory_v4 custom input)).Nodup := by
      intro custom input hnd
      unfold handleCreateCustomCategory_v4
      by_cases hg : (jsTrim input != "" && !(categoriesList_v4 custom).contains (jsTrim input))
          = true
      · rw [if_pos hg]
        have hmem : jsTrim input ∉ categoriesList_v4 custom := by
          simp only [Bool.and_eq_true, Bool.not_eq_true'] at hg
          intro hm
          have : (categoriesList_v4 custom).contains (jsTrim input) = true := by
            exact List.elem_eq_true_of_mem hm
          rw [this] at hg
          exact Bool.noConfusion hg.2
        unfold categoriesList_v4 at hnd hmem ⊢
        rw [show BASE_CATEGORIES_v15 ++ (custom ++ [jsTrim input]) =
            (BASE_CATEGORIES_v15 ++ custom) ++ [jsTrim input] by simp]
        rw [List.nodup_append]
        refine ⟨hnd, List.nodup_singleton _, ?_⟩
        intro a ha hb
        rw [List.mem_singleton] at hb
        exact hmem (hb ▸ ha)
      · rw [if_neg hg]
        exact hnd
    have aux : ∀ (inputs : List String) (custom : List String),
        (categoriesList_v4 custom).Nodup →
        (categoriesList_v4 (inputs.foldl handleCreateCustomCategory_v4 custom)).Nodup := by
      intro inputs
      induction inputs with
      | nil => intro custom h; simpa using h
      | cons i rest ih =>
        intro custom h
        simpa using ih (handleCreateCustomCategory_v4 custom i) (step custom i h)
    exact aux inputs [] (by decide)

/-! ## Machinery for the sync-engine claims -/

/-- Classification of remote calls: `findOrCreateFolder` searches. -/
def isFindCall : RemoteCall → Bool
  | RemoteCall.findFolder _ _ => true
  | _ => false

/-- Classification of remote calls: folder creations. -/
def isCreateCall : RemoteCall → Bool
  | RemoteCall.createFolder _ _ => true
  | _ => false

/-- Classification of remote calls: file uploads. -/
def isUploadCall : RemoteCall → Bool
  | RemoteCall.upload _ _ => true
  | _ => false

/-- The folder name addressed by a call (`none` for an upload). -/
def callName : RemoteCall → Option String
  | RemoteCall.findFolder n _ => some n
  | RemoteCall.createFolder n _ => some n
  | RemoteCall.upload _ _ => none

theorem contains_cons (h : String) (t : List String) (x : String) :
    (h :: t).contains x = (x == h || t.contains x) := by
  cases hxh : x == h <;> simp [List.contains, List.elem, hxh]

theorem contains_append (a b : List String) (x : String) :
    (a ++ b).contains x = (a.contains x || b.contains x) := by
  induction a with
  | nil => rfl
  | cons h t ih => rw [List.cons_append, contains_cons, contains_cons, ih, Bool.or_assoc]

/-- Updates a V18 certificate to `synced` when its id belongs to `ids`. -/
def setSyncedInV18 (ids : List String) (c : CertV18) : CertV18 :=
  if ids.contains c.id then { c with synced := true } else c

theorem setSyncedInV18_nil (c : CertV18) : setSyncedInV18 [] c = c := rfl

theorem map_setSyncedInV18_nil : ∀ certs : List CertV18, certs.map (setSyncedInV18 []) = certs
  | [] => rfl
  | c :: cs => by rw [List.map_cons, setSyncedInV18_nil, map_setSyncedInV18_nil cs]

theorem setSyncedInV18_comp (a b : List String) (c : CertV18) :
    setSyncedInV18 b (setSyncedInV18 a c) = setSyncedInV18 (a ++ b) c := by
  by_cases ha : c.id ∈ a <;> by_cases hb : c.id ∈ b <;>
    simp [setSyncedInV18, contains_append, ha, hb]

theorem markSyncedV18_eq_map (i : String) (certs : List CertV18) :
    markSyncedV18 i certs = certs.map (setSyncedInV18 [i]) := by
  unfold markSyncedV18
  refine List.map_congr_left (fun c _ => ?_)
  by_cases h : c.id = i <;> simp [setSyncedInV18, h]

/-- After a map update, a further map update merges into one id list. -/
theorem map_setSyncedInV18 (a b : List String) (certs : List CertV18) :
    (certs.map (setSyncedInV18 a)).map (setSyncedInV18 b) =
      certs.map (setSyncedInV18 (a ++ b)) := by
  rw [List.map_map]
  exact List.map_congr_left (fun c _ => setSyncedInV18_comp a b c)

/-- The V18 per-record loop only extends the call trace, and its certificate
updates are exactly the synced-marks of some list of ids, each justified by a
successful upload call present in the final trace. -/
theorem syncLoopV18_spec (env : DriveEnv) (pfid : String) :
    ∀ (work certs : List CertV18) (fs : List Folder) (calls : List RemoteCall)
      (sts : List String),
      (∃ ext, (syncLoopV18 env pfid work certs fs calls sts).calls = calls ++ ext) ∧
      (∃ ids : List String,
        (syncLoopV18 env pfid work certs fs calls sts).certs =
          certs.map (setSyncedInV18 ids) ∧
        ∀ i ∈ ids, env.uploadOk i = true ∧
          ∃ fid, RemoteCall.upload i fid ∈
            (syncLoopV18 env pfid work certs fs calls sts).calls) := by
  intro work
  induction work with
  | nil =>
    intro certs fs calls sts
    refine ⟨⟨[], by simp [syncLoopV18]⟩, ⟨[], ?_, by simp⟩⟩
    simp [syncLoopV18, map_setSyncedInV18_nil]
  | cons cert rest ih =>
    intro certs fs calls sts
    rw [syncLoopV18]
    cases hf1 : findOrCreateFolder env (getAcademicYear_v18 cert.date) (some pfid) fs with
    | none =>
      refine ⟨⟨[], by simp⟩, ⟨[], by simp [map_setSyncedInV18_nil], by simp⟩⟩
    | some res1 =>
      obtain ⟨yearId, fs1, cs1⟩ := res1
      simp only []
      cases hf2 : findOrCreateFolder env cert.category (some yearId) fs1 with
      | none =>
        refine ⟨⟨cs1, by simp⟩, ⟨[], by simp [map_setSyncedInV18_nil], by simp⟩⟩
      | some res2 =>
        obtain ⟨catId, fs2, cs2⟩ := res2
        simp only []
        cases hup : env.uploadOk cert.id with
        | false =>
          simp only [hup, Bool.false_eq_true, if_false]
          exact ⟨⟨cs1 ++ (cs2 ++ [RemoteCall.upload cert.id catId]), by simp⟩,
                 ⟨[], by simp [map_setSyncedInV18_nil], by simp⟩⟩
        | true =>
          simp only [hup, if_true]
          obtain ⟨⟨ext, hext⟩, ⟨ids, hids, hjust⟩⟩ :=
            ih (markSyncedV18 cert.id certs) fs2
              (calls ++ cs1 ++ cs2 ++ [RemoteCall.upload cert.id catId])
              (sts ++ ["Vaulting: " ++ cert.title ++ "..."])
          refine ⟨⟨cs1 ++ (cs2 ++ [RemoteCall.upload cert.id catId]) ++ ext, by
            rw [hext]; simp⟩, ⟨cert.id :: ids, ?_, ?_⟩⟩
          · rw [hids, markSyncedV18_eq_map, map_setSyncedInV18]
            rfl
          · intro i hi
            rcases List.mem_cons.1 hi with hi | hi
            · subst hi
              refine ⟨hup, catId, ?_⟩
              rw [hext]
              simp
            · exact hjust i hi

/-- Updates a V15 certificate to `synced` when its id belongs to `ids`. -/
def setSyncedInV15 (ids : List String) (c : CertV15) : CertV15 :=
  if ids.contains c.id then { c with synced := true } else c

theorem setSyncedInV15_nil (c : CertV15) : setSyncedInV15 [] c = c := rfl

theorem map_setSyncedInV15_nil : ∀ certs : List CertV15, certs.map (setSyncedInV15 []) = certs
  | [] => rfl
  | c :: cs => by rw [List.map_cons, setSyncedInV15_nil, map_setSyncedInV15_nil cs]

theorem setSyncedInV15_comp (a b : List String) (c : CertV15) :
    setSyncedInV15 b (setSyncedInV15 a c) = setSyncedInV15 (a ++ b) c := by
  by_cases ha : c.id ∈ a <;> by_cases hb : c.id ∈ b <;>
    simp [setSyncedInV15, contains_append, ha, hb]

theorem markSyncedV15_eq_map (i : String) (certs : List CertV15) :
    markSyncedV15 i certs = certs.map (setSyncedInV15 [i]) := by
  unfold markSyncedV15
  refine List.map_congr_left (fun c _ => ?_)
  by_cases h : c.id = i <;> simp [setSyncedInV15, h]

theorem map_setSyncedInV15 (a b : List String) (certs : List CertV15) :
    (certs.map (setSyncedInV15 a)).map (setSyncedInV15 b) =
      certs.map (setSyncedInV15 (a ++ b)) := by
  rw [List.map_map]
  exact List.map_congr_left (fun c _ => setSyncedInV15_comp a b c)

/-- Updates a V4 certificate to `synced` when its id belongs to `ids`. -/
def setSyncedInV4 (ids : List String) (c : CertV4) : CertV4 :=
  if ids.contains c.id then { c with synced := true } else c

theorem setSyncedInV4_nil (c : CertV4) : setSyncedInV4 [] c = c := rfl

theorem map_setSyncedInV4_nil : ∀ certs : List CertV4, certs.map (setSyncedInV4 []) = certs
  | [] => rfl
  | c :: cs => by rw [List.map_cons, setSyncedInV4_nil, map_setSyncedInV4_nil cs]

theorem setSyncedInV4_comp (a b : List String) (c : CertV4) :
    setSyncedInV4 b (setSyncedInV4 a c) = setSyncedInV4 (a ++ b) c := by
  by_cases ha : c.id ∈ a <;> by_cases hb : c.id ∈ b <;>
    simp [setSyncedInV4, contains_append, ha, hb]

theorem markSyncedV4_eq_map (i : String) (certs : List CertV4) :
    markSyncedV4 i certs = certs.map (setSyncedInV4 [i]) := by
  unfold markSyncedV4
  refine List.map_congr_left (fun c _ => ?_)
  by_cases h : c.id = i <;> simp [setSyncedInV4, h]

theorem map_setSyncedInV4 (a b : List String) (certs : List CertV4) :
    (certs.map (setSyncedInV4 a)).map (setSyncedInV4 b) =
      certs.map (setSyncedInV4 (a ++ b)) := by
  rw [List.map_map]
  exact List.map_congr_left (fun c _ => setSyncedInV4_comp a b c)

theorem itemLoopV15_certs :
    ∀ (items : List CertV15) (certs : List CertV15) (logs : List SyncLogE),
      ∃ ids, (itemLoopV15 items certs logs).1 = certs.map (setSyncedInV15 ids) := by
  intro items
  induction items with
  | nil =>
    intro certs logs
    exact ⟨[], (map_setSyncedInV15_nil certs).symm⟩
  | cons i rest ih =>
    intro certs logs
    obtain ⟨ids, hids⟩ := ih (markSyncedV15 i.id certs)
      (logs ++ [⟨"    * Uploading \"" ++ i.title ++ ".pdf\"", LogStatus.pending⟩])
    refine ⟨i.id :: ids, ?_⟩
    show (itemLoopV15 rest (markSyncedV15 i.id certs) _).1 = _
    rw [hids, markSyncedV15_eq_map, map_setSyncedInV15]
    rfl

theorem catLoopV15_certs :
    ∀ (cats : List String) (yearCerts : List CertV15) (certs : List CertV15)
      (logs : List SyncLogE),
      ∃ ids, (catLoopV15 yearCerts cats certs logs).1 = certs.map (setSyncedInV15 ids) := by
  intro cats
  induction cats with
  | nil =>
    intro yearCerts certs logs
    exact ⟨[], (map_setSyncedInV15_nil certs).symm⟩
  | cons cat rest ih =>
    intro yearCerts certs logs
    obtain ⟨ids1, h1⟩ := itemLoopV15_certs (yearCerts.filter (fun c => c.category == cat)) certs
      (logs ++ [⟨"  > Syncing category: " ++ cat, LogStatus.pending⟩,
                ⟨"  > Folder " ++ cat ++ " established.", LogStatus.success⟩])
    obtain ⟨ids2, h2⟩ := ih yearCerts
      (itemLoopV15 (yearCerts.filter (fun c => c.category == cat)) certs
        (logs ++ [⟨"  > Syncing category: " ++ cat, LogStatus.pending⟩,
                  ⟨"  > Folder " ++ cat ++ " established.", LogStatus.success⟩])).1
      (itemLoopV15 (yearCerts.filter (fun c => c.category == cat)) certs
        (logs ++ [⟨"  > Syncing category: " ++ cat, LogStatus.pending⟩,
                  ⟨"  > Folder " ++ cat ++ " established.", LogStatus.success⟩])).2
    refine ⟨ids1 ++ ids2, ?_⟩
    have hstep : catLoopV15 yearCerts (cat :: rest) certs logs =
        catLoopV15 yearCerts rest
          (itemLoopV15 (yearCerts.filter (fun c => c.category == cat)) certs
            (logs ++ [⟨"  > Syncing category: " ++ cat, LogStatus.pending⟩,
                      ⟨"  > Folder " ++ cat ++ " established.", LogStatus.success⟩])).1
          (itemLoopV15 (yearCerts.filter (fun c => c.category == cat)) certs
            (logs ++ [⟨"  > Syncing category: " ++ cat, LogStatus.pending⟩,
                      ⟨"  > Folder " ++ cat ++ " established.", LogStatus.success⟩])).2 := rfl
    rw [hstep, h2, h1, map_setSyncedInV15]

theorem yearLoopV15_certs :
    ∀ (years : List String) (profileCerts : List CertV15) (certs : List CertV15)
      (logs : List SyncLogE),
      ∃ ids, (yearLoopV15 profileCerts years certs logs).1 = certs.map (setSyncedInV15 ids) := by
  intro years
  induction years with
  | nil =>
    intro profileCerts certs logs
    exact ⟨[], (map_setSyncedInV15_nil certs).symm⟩
  | cons year rest ih =>
    intro profileCerts certs logs
    set logs1 := logs ++ [⟨"Creating year folder: " ++ year, LogStatus.pending⟩,
                          ⟨"Folder " ++ year ++ " ready.", LogStatus.success⟩] with hlogs1
    set yc := profileCerts.filter (fun c => getAcademicYear_v15 c.date == year) with hyc
    obtain ⟨ids1, h1⟩ := catLoopV15_certs (jsSetDedup (yc.map (fun c => c.category)))
      yc certs logs1
    obtain ⟨ids2, h2⟩ := ih profileCerts
      (catLoopV15 yc (jsSetDedup (yc.map (fun c => c.category))) certs logs1).1
      (catLoopV15 yc (jsSetDedup (yc.map (fun c => c.category))) certs logs1).2
    refine ⟨ids1 ++ ids2, ?_⟩
    have hstep : yearLoopV15 profileCerts (year :: rest) certs logs =
        yearLoopV15 profileCerts rest
          (catLoopV15 yc (jsSetDedup (yc.map (fun c => c.category))) certs logs1).1
          (catLoopV15 yc (jsSetDedup (yc.map (fun c => c.category))) certs logs1).2 := rfl
    rw [hstep, h2, h1, map_setSyncedInV15]

theorem itemLoopV4_certs :
    ∀ (items : List CertV4) (year cat : String) (certs : List CertV4) (logs : List SyncLogE),
      ∃ ids, (itemLoopV4 year cat items certs logs).1 = certs.map (setSyncedInV4 ids) := by
  intro items
  induction items with
  | nil =>
    intro year cat certs logs
    exact ⟨[], (map_setSyncedInV4_nil certs).symm⟩
  | cons i rest ih =>
    intro year cat certs logs
    obtain ⟨ids, hids⟩ := ih year cat (markSyncedV4 i.id certs)
      (logs ++ [⟨"Uploading: " ++ i.title ++ ".pdf", LogStatus.pending⟩,
                ⟨"Success: " ++ i.title ++ " stored in /" ++ year ++ "/" ++ cat,
                 LogStatus.success⟩])
    refine ⟨i.id :: ids, ?_⟩
    show (itemLoopV4 year cat rest (markSyncedV4 i.id certs) _).1 = _
    rw [hids, markSyncedV4_eq_map, map_setSyncedInV4]
    rfl

theorem catLoopV4_certs :
    ∀ (cats : List String) (profileName year : String) (yearCerts : List CertV4)
      (certs : List CertV4) (logs : List SyncLogE),
      ∃ ids, (catLoopV4 profileName year yearCerts cats certs logs).1 =
        certs.map (setSyncedInV4 ids) := by
  intro cats
  induction cats with
  | nil =>
    intro pn year yearCerts certs logs
    exact ⟨[], (map_setSyncedInV4_nil certs).symm⟩
  | cons cat rest ih =>
    intro pn year yearCerts certs logs
    set logs1 := logs ++
      [⟨"Verifying Subfolder: /" ++ pn ++ "/" ++ year ++ "/" ++ cat ++ "...",
        LogStatus.pending⟩,
       ⟨"Created Subfolder: " ++ cat, LogStatus.success⟩] with hlogs1
    set grp := yearCerts.filter (fun c => c.category == cat) with hgrp
    obtain ⟨ids1, h1⟩ := itemLoopV4_certs grp year cat certs logs1
    obtain ⟨ids2, h2⟩ := ih pn year yearCerts
      (itemLoopV4 year cat grp certs logs1).1 (itemLoopV4 year cat grp certs logs1).2
    refine ⟨ids1 ++ ids2, ?_⟩
    have hstep : catLoopV4 pn year yearCerts (cat :: rest) certs logs =
        catLoopV4 pn year yearCerts rest
          (itemLoopV4 year cat grp certs logs1).1 (itemLoopV4 year cat grp certs logs1).2 := rfl
    rw [hstep, h2, h1, map_setSyncedInV4]

theorem yearLoopV4_certs :
    ∀ (years : List String) (profileName : String) (profileCerts : List CertV4)
      (certs : List CertV4) (logs : List SyncLogE),
      ∃ ids, (yearLoopV4 profileName profileCerts years certs logs).1 =
        certs.map (setSyncedInV4 ids) := by
  intro years
  induction years with
  | nil =>
    intro pn profileCerts certs logs
    exact ⟨[], (map_setSyncedInV4_nil certs).symm⟩
  | cons year rest ih =>
    intro pn profileCerts certs logs
    set logs1 := logs ++
      [⟨"Verifying Folder Structure: /" ++ pn ++ "/" ++ year ++ "...", LogStatus.pending⟩,
       ⟨"Created Folder: " ++ year, LogStatus.success⟩] with hlogs1
    set yc := profileCerts.filter (fun c => getAcademicYear_v4 c.date == year) with hyc
    obtain ⟨ids1, h1⟩ := catLoopV4_certs (jsSetDedup (yc.map (fun c => c.category)))
      pn year yc certs logs1
    obtain ⟨ids2, h2⟩ := ih pn profileCerts
      (catLoopV4 pn year yc (jsSetDedup (yc.map (fun c => c.category))) certs logs1).1
      (catLoopV4 pn year yc (jsSetDedup (yc.map (fun c => c.category))) certs logs1).2
    refine ⟨ids1 ++ ids2, ?_⟩
    have hstep : yearLoopV4 pn profileCerts (year :: rest) certs logs =
        yearLoopV4 pn profileCerts rest
          (catLoopV4 pn year yc (jsSetDedup (yc.map (fun c => c.category))) certs logs1).1
          (catLoopV4 pn year yc (jsSetDedup (yc.map (fun c => c.category))) certs logs1).2 := rfl
    rw [hstep, h2, h1, map_setSyncedInV4]

/-! ## Claim C4 -/

/-- C4.  The `synced` flag is monotone under every sync-engine operation
and is set only upon a confirmed upload.  In each variant, the certificate
collection produced by a sync invocation equals the input collection with the
`synced` flag set to `true` on some list of certificate ids and no other
change — so a certificate with `synced = true` is never reset to `false`.
For V18, the only variant that issues remote calls, every id in that list
additionally carries a successful upload: the environment accepted the upload
(`uploadOk`) and an `upload` call for that certificate is present in the
recorded remote trace, and the engine issues the upload strictly before the
`setCertificates` mark (lines 312-314 of `src/unnamed/part_000`).  The V15 and
V4 engines and `syncSingleItem` simulate uploads without remote calls and
likewise only ever set the flag to `true`. -/
theorem c4_synced_flag_invariant :
    (∀ (env : DriveEnv) (profiles : List Profile) (active : String)
       (certs : List CertV18) (fs : List Folder),
      ∃ ids : List String,
        (syncToDrive_v18 env profiles active certs fs).certs =
          certs.map (setSyncedInV18 ids) ∧
        ∀ i ∈ ids, env.uploadOk i = true ∧
          ∃ fid, RemoteCall.upload i fid ∈
            (syncToDrive_v18 env profiles active certs fs).calls) ∧
    (∀ (profiles : List Profile) (active : String) (certs : List CertV15),
      ∃ ids, (syncToDrive_v15 profiles active certs).certs =
        certs.map (setSyncedInV15 ids)) ∧
    (∀ (profiles : List Profile) (active : String) (certs : List CertV4),
      ∃ ids, (syncToDrive_v4 profiles active certs).certs =
        certs.map (setSyncedInV4 ids)) ∧
    (∀ (cert : CertV4) (certs : List CertV4),
      (syncSingleItem_v4 cert certs).certs = certs.map (setSyncedInV4 [cert.id])) := by
  refine ⟨?_, ?_, ?_, ?_⟩
  · intro env profiles active certs fs
    unfold syncToDrive_v18
    cases hsi : env.signedIn with
    | false =>
      simp only [hsi, Bool.not_false, if_true]
      exact ⟨[], (map_setSyncedInV18_nil certs).symm, by simp⟩
    | true =>
      simp only [hsi, Bool.not_true, Bool.false_eq_true, if_false]
      cases hp : profiles.find? (fun p => p.id == active) with
      | none =>
        exact ⟨[], (map_setSyncedInV18_nil certs).symm, by simp⟩
      | some profile =>
        simp only []
        cases hr1 : findOrCreateFolder env "CertiVault" none fs with
        | none =>
          exact ⟨[], (map_setSyncedInV18_nil certs).symm, by simp⟩
        | some res1 =>
          obtain ⟨rootId, fs1, cs1⟩ := res1
          simp only []
          cases hr2 : findOrCreateFolder env profile.name (some rootId) fs1 with
          | none =>
            exact ⟨[], (map_setSyncedInV18_nil certs).symm, by simp⟩
          | some res2 =>
            obtain ⟨profileFolderId, fs2, cs2⟩ := res2
            simp only []
            by_cases hempty :
                (certs.filter (fun c => c.profileId == active && !c.synced)).isEmpty
            · simp only [hempty, if_true]
              exact ⟨[], (map_setSyncedInV18_nil certs).symm, by simp⟩
            · simp only [hempty, Bool.false_eq_true, if_false]
              obtain ⟨_, ⟨ids, hids, hjust⟩⟩ :=
                syncLoopV18_spec env profileFolderId
                  (certs.filter (fun c => c.profileId == active && !c.synced)) certs fs2
                  (cs1 ++ cs2) ["Mirroring Vault to Cloud..."]
              exact ⟨ids, hids, hjust⟩
  · intro profiles active certs
    unfold syncToDrive_v15
    cases hp : profiles.find? (fun p => p.id == active) with
    | none => exact ⟨[], (map_setSyncedInV15_nil certs).symm⟩
    | some profile =>
      simp only []
      obtain ⟨ids, hids⟩ := yearLoopV15_certs
        (jsSetDedup ((workSet_v15 certs active).map (fun c => getAcademicYear_v15 c.date)))
        (workSet_v15 certs active) certs
        [⟨"Initializing Google Drive Sync for Profile: " ++ profile.name, LogStatus.info⟩,
         ⟨"Creating hierarchy: Drive > CertiVault > " ++ profile.name, LogStatus.pending⟩,
         ⟨"Root folder established.", LogStatus.success⟩]
      exact ⟨ids, hids⟩
  · intro profiles active certs
    unfold syncToDrive_v4
    cases hp : profiles.find? (fun p => p.id == active) with
    | none => exact ⟨[], (map_setSyncedInV4_nil certs).symm⟩
    | some profile =>
      simp only []
      by_cases hempty :
          (certs.filter (fun c => c.profileId == active && !c.synced)).isEmpty
      · simp only [hempty, if_true]
        exact ⟨[], (map_setSyncedInV4_nil certs).symm⟩
      · simp only [hempty, Bool.false_eq_true, if_false]
        obtain ⟨ids, hids⟩ := yearLoopV4_certs
          (jsSetDedup ((certs.filter (fun c => c.profileId == active && !c.synced)).map
            (fun c => getAcademicYear_v4 c.date)))
          profile.name (certs.filter (fun c => c.profileId == active && !c.synced)) certs
          ([⟨"Initializing Google Drive Sync for Profile: " ++ profile.name, LogStatus.info⟩,
            ⟨"Connecting to Drive API...", LogStatus.pending⟩] ++
           [⟨"Found " ++ toString
               (certs.filter (fun c => c.profileId == active && !c.synced)).length ++
             " unsynced items.", LogStatus.info⟩])
        exact ⟨ids, hids⟩
  · intro cert certs
    show markSyncedV4 cert.id certs = _
    exact markSyncedV4_eq_map cert.id certs

/-! ## All-success behaviour of the V18 engine -/

/-- The remote store never holds two folders with the same name under the same
parent. -/
def foldersDistinct (fs : List Folder) : Prop :=
  List.Pairwise (fun f g => ¬(f.name = g.name ∧ f.parent = g.parent)) fs

/-- When the environment accepts folder operations, `findOrCreateFolder`
succeeds, appends at most the newly created folder to the store, records
exactly one search (and at most one creation) addressed at the given name,
creates no duplicate folder, and afterwards the store resolves the name under
the parent. -/
theorem findOrCreateFolder_allok (env : DriveEnv) (name : String) (parent : Option String)
    (fs : List Folder) (hf : env.folderOk name parent = true) :
    ∃ fid ext cs, findOrCreateFolder env name parent fs = some (fid, fs ++ ext, cs) ∧
      cs.countP isFindCall = 1 ∧ cs.countP isUploadCall = 0 ∧
      (∀ c ∈ cs, callName c = some name) ∧
      (foldersDistinct fs → foldersDistinct (fs ++ ext)) ∧
      (∃ f : Folder, folderLookup name parent (fs ++ ext) = some f ∧ f.id = fid) := by
  unfold findOrCreateFolder
  rw [if_pos hf]
  cases hl : folderLookup name parent fs with
  | some f =>
    refine ⟨f.id, [], [RemoteCall.findFolder name parent], by simp, ?_, ?_, ?_, ?_, ?_⟩
    · simp [List.countP_cons, isFindCall]
    · simp [List.countP_cons, isUploadCall]
    · intro c hc
      rw [List.mem_singleton] at hc
      subst hc
      rfl
    · intro h
      simpa using h
    · exact ⟨f, by simpa using hl, rfl⟩
  | none =>
    refine ⟨mkFolderId parent name, [⟨mkFolderId parent name, name, parent⟩],
      [RemoteCall.findFolder name parent, RemoteCall.createFolder name parent],
      by simp, ?_, ?_, ?_, ?_, ?_⟩
    · simp [List.countP_cons, isFindCall]
    · simp [List.countP_cons, isUploadCall]
    · intro c hc
      rcases List.mem_cons.1 hc with hc | hc
      · subst hc; rfl
      · rw [List.mem_singleton] at hc
        subst hc; rfl
    · intro h
      unfold foldersDistinct at h ⊢
      rw [List.pairwise_append]
      refine ⟨h, List.pairwise_singleton _ _, ?_⟩
      intro a ha b hb
      rw [List.mem_singleton] at hb
      subst hb
      intro ⟨hn, hp⟩
      have := List.find?_eq_none.1 hl a ha
      simp only [Bool.and_eq_true, beq_iff_eq] at this
      exact this ⟨hn, hp⟩
    · refine ⟨⟨mkFolderId parent name, name, parent⟩, ?_, rfl⟩
      unfold folderLookup at hl ⊢
      rw [List.find?_append, hl]
      simp

/-- If a search already succeeds on a store, it returns the same folder after
any extension of the store. -/
theorem folderLookup_append {name : String} {parent : Option String} {fs : List Folder}
    {f : Folder} (h : folderLookup name parent fs = some f) (ext : List Folder) :
    folderLookup name parent (fs ++ ext) = some f := by
  unfold folderLookup at h ⊢
  rw [List.find?_append, h]
  rfl

/-- Behaviour of the V18 per-record loop when every remote operation succeeds:
no error, every work-set record marked synced (in order), the store only
extended without ever duplicating a `(name, parent)` pair, exactly two folder
searches and one upload added per record. -/
theorem syncLoopV18_allok (env : DriveEnv) (pfid : String)
    (hf : ∀ n p, env.folderOk n p = true) (hu : ∀ i, env.uploadOk i = true) :
    ∀ (work certs : List CertV18) (fs : List Folder) (calls : List RemoteCall)
      (sts : List String),
      (syncLoopV18 env pfid work certs fs calls sts).errorMsg = none ∧
      (syncLoopV18 env pfid work certs fs calls sts).certs =
        work.foldl (fun cs c => markSyncedV18 c.id cs) certs ∧
      (∃ ext, (syncLoopV18 env pfid work certs fs calls sts).folders = fs ++ ext) ∧
      ((syncLoopV18 env pfid work certs fs calls sts).calls.countP isFindCall =
        calls.countP isFindCall + 2 * work.length) ∧
      ((syncLoopV18 env pfid work certs fs calls sts).calls.countP isUploadCall =
        calls.countP isUploadCall + work.length) ∧
      (foldersDistinct fs → foldersDistinct (syncLoopV18 env pfid work certs fs calls sts).folders) := by
  intro work
  induction work with
  | nil =>
    intro certs fs calls sts
    refine ⟨by simp [syncLoopV18], by simp [syncLoopV18], ⟨[], by simp [syncLoopV18]⟩,
      by simp [syncLoopV18], by simp [syncLoopV18], fun h => by simpa [syncLoopV18] using h⟩
  | cons cert rest ih =>
    intro certs fs calls sts
    obtain ⟨fid1, ext1, cs1, he1, hc1f, hc1u, _, hd1, _⟩ :=
      findOrCreateFolder_allok env (getAcademicYear_v18 cert.date) (some pfid) fs
        (hf _ _)
    obtain ⟨fid2, ext2, cs2, he2, hc2f, hc2u, _, hd2, _⟩ :=
      findOrCreateFolder_allok env cert.category (some fid1) (fs ++ ext1) (hf _ _)
    rw [syncLoopV18, he1]
    simp only []
    rw [he2]
    simp only [hu cert.id, if_true]
    obtain ⟨herr, hcerts, ⟨ext3, hfold⟩, hfind, hupload, hdist⟩ :=
      ih (markSyncedV18 cert.id certs) (fs ++ ext1 ++ ext2)
        (calls ++ cs1 ++ cs2 ++ [RemoteCall.upload cert.id fid2])
        (sts ++ ["Vaulting: " ++ cert.title ++ "..."])
    refine ⟨herr, by rw [hcerts]; rfl, ⟨ext1 ++ ext2 ++ ext3, by rw [hfold]; simp⟩, ?_, ?_, ?_⟩
    · rw [hfind]
      simp only [List.countP_append, hc1f, hc2f, List.length_cons]
      have : (List.countP isFindCall [RemoteCall.upload cert.id fid2]) = 0 := by
        simp [List.countP_cons, isFindCall]
      rw [this]
      ring
    · rw [hupload]
      simp only [List.countP_append, hc1u, hc2u, List.length_cons]
      have : (List.countP isUploadCall [RemoteCall.upload cert.id fid2]) = 1 := by
        simp [List.countP_cons, isUploadCall]
      rw [this]
      ring
    · intro h
      exact hdist (hd2 (hd1 h))

/-- Marking every record of the work-set synced empties the work-set. -/
theorem foldlMark_eq_map_v18 :
    ∀ (w : List CertV18) (certs : List CertV18),
      w.foldl (fun cs c => markSyncedV18 c.id cs) certs =
        certs.map (setSyncedInV18 (w.map (fun c => c.id))) := by
  intro w
  induction w with
  | nil => intro certs; exact (map_setSyncedInV18_nil certs).symm
  | cons c w ih =>
    intro certs
    show w.foldl _ (markSyncedV18 c.id certs) = _
    rw [ih (markSyncedV18 c.id certs), markSyncedV18_eq_map, map_setSyncedInV18]
    rfl

theorem workset_cleared (certs : List CertV18) (active : String) :
    ((certs.filter (fun c => c.profileId == active && !c.synced)).foldl
        (fun cs c => markSyncedV18 c.id cs) certs).filter
      (fun c => c.profileId == active && !c.synced) = [] := by
  rw [foldlMark_eq_map_v18]
  rw [List.filter_eq_nil_iff]
  intro y hy
  obtain ⟨x, hx, rfl⟩ := List.mem_map.1 hy
  by_cases hcont :
      ((certs.filter (fun c => c.profileId == active && !c.synced)).map
        (fun c => c.id)).contains x.id
  · unfold setSyncedInV18
    rw [if_pos hcont]
    simp
  · unfold setSyncedInV18
    rw [if_neg (by simpa using hcont)]
    intro hpx
    apply hcont
    apply List.elem_eq_true_of_mem
    exact List.mem_map.2 ⟨x, List.mem_filter.2 ⟨hx, hpx⟩, rfl⟩

/-! ## Concrete fixtures for the sync-engine claims -/

/-- A single profile, used as concrete input. -/
def annProfiles : List Profile := [⟨"p1", "Ann"⟩]

/-- Environment in which every remote operation succeeds. -/
def envAll : DriveEnv := ⟨true, fun _ _ => true, fun _ => true⟩

/-- Environment in which every operation succeeds except the upload of the
certificate with id `c2`. -/
def envFailSecond : DriveEnv := ⟨true, fun _ _ => true, fun cid => cid != "c2"⟩

/-- Unsynced V18 certificate fixtures of profile `p1`. -/
def c18a : CertV18 := ⟨"c1", "img", "p1", "S", "Tc1", "I", "2024-05-10", "Sports", "sum", 0, false⟩

/-- Second fixture: same academic year and category as `c18a`. -/
def c18b : CertV18 := ⟨"c2", "img", "p1", "S", "Tc2", "I", "2024-06-11", "Sports", "sum", 0, false⟩

/-- Third fixture: a different category. -/
def c18c : CertV18 := ⟨"c3", "img", "p1", "S", "Tc3", "I", "2024-05-12", "Arts", "sum", 0, false⟩

/-- An already-synced V18 certificate of profile `p1`. -/
def c18synced : CertV18 :=
  ⟨"c0", "img", "p1", "S", "Tc0", "I", "2024-05-10", "Sports", "sum", 0, true⟩

/-- An already-synced V15 certificate of profile `p1`. -/
def c15synced : CertV15 :=
  ⟨"c1", "img", none, "p1", "S", "T", "I", "2024-05-10", "Sports", "Subj", "Sum", 0, true⟩

/-- An already-synced V4 certificate of profile `p1`. -/
def c4synced : CertV4 :=
  ⟨"c1", "img", none, "p1", "S", "T", "I", "2024-05-10", "Sports", "Subj", "Sum", [], 0, true⟩

/-! ## Claim C1 -/

/-- C1, counterexample.  In the V15 engine the claim fails: with one
certificate of the active profile that is already synced, the set of
unsynced active-profile certificates is empty, yet the selection of the engine
(`workSet_v15`, line 407 of `src/index.tsx`) still contains the synced
certificate, and the run emits per-record processing log entries (year folder,
category folder, an upload entry for the record) and no already-in-sync
entry — instead of emitting a single already-in-sync entry and doing nothing. -/
theorem c1_workset_counterexample :
    ([c15synced].filter (fun c => c.profileId == "p1" && !c.synced) = []) ∧
    workSet_v15 [c15synced] "p1" = [c15synced] ∧
    (syncToDrive_v15 annProfiles "p1" [c15synced]).logs.map (fun l => l.message) =
      ["Initializing Google Drive Sync for Profile: Ann",
       "Creating hierarchy: Drive > CertiVault > Ann",
       "Root folder established.",
       "Creating year folder: 2024-2025",
       "Folder 2024-2025 ready.",
       "  > Syncing category: Sports",
       "  > Folder Sports established.",
       "    * Uploading \"T.pdf\"",
       "Profile \"Ann\" fully mirrored on Google Drive."] := by
  refine ⟨by decide, by decide, by decide⟩

/-- C1, amended.  For the V18 and V4 engines the claim holds: the work-set is
exactly the active-profile certificates with `synced = false`, and when it is
empty the engine emits a single already-in-sync entry (the
`"Vault already in sync!"` status in V18, the `"Vault is already up to date."`
log entry in V4), terminates successfully, performs no per-record remote calls
(in V18 every recorded call addresses only the two root-establishment folders
`CertiVault` and the profile folder; V4 performs no remote calls at all), and
leaves every certificate unchanged.  The V15 engine does not satisfy the
claim (see the counterexample): its work-set ignores the `synced` flag and it
has no already-in-sync path. -/
theorem c1_empty_workset_amended :
    (∀ (env : DriveEnv) (profiles : List Profile) (active : String)
       (certs : List CertV18) (fs : List Folder) (profile : Profile),
      env.signedIn = true →
      profiles.find? (fun p => p.id == active) = some profile →
      (∀ n p, env.folderOk n p = true) →
      certs.filter (fun c => c.profileId == active && !c.synced) = [] →
      (syncToDrive_v18 env profiles active certs fs).certs = certs ∧
      (syncToDrive_v18 env profiles active certs fs).statuses =
        ["Mirroring Vault to Cloud...", "Vault already in sync!"] ∧
      (syncToDrive_v18 env profiles active certs fs).errorMsg = none ∧
      (∀ c ∈ (syncToDrive_v18 env profiles active certs fs).calls,
        callName c = some "CertiVault" ∨ callName c = some profile.name)) ∧
    (∀ (profiles : List Profile) (active : String) (certs : List CertV4) (profile : Profile),
      profiles.find? (fun p => p.id == active) = some profile →
      certs.filter (fun c => c.profileId == active && !c.synced) = [] →
      (syncToDrive_v4 profiles active certs).certs = certs ∧
      (syncToDrive_v4 profiles active certs).logs =
        [⟨"Initializing Google Drive Sync for Profile: " ++ profile.name, LogStatus.info⟩,
         ⟨"Connecting to Drive API...", LogStatus.pending⟩,
         ⟨"Vault is already up to date.", LogStatus.success⟩]) := by
  constructor
  · intro env profiles active certs fs profile hs hp hf hw
    unfold syncToDrive_v18
    rw [hs]
    simp only [Bool.not_true, Bool.false_eq_true, if_false]
    rw [hp]
    simp only []
    obtain ⟨fid1, ext1, cs1, he1, _, _, hn1, _, _⟩ :=
      findOrCreateFolder_allok env "CertiVault" none fs (hf _ _)
    rw [he1]
    simp only []
    obtain ⟨fid2, ext2, cs2, he2, _, _, hn2, _, _⟩ :=
      findOrCreateFolder_allok env profile.name (some fid1) (fs ++ ext1) (hf _ _)
    rw [he2]
    simp only [hw, List.isEmpty_nil, if_true]
    refine ⟨trivial, by simp, trivial, ?_⟩
    intro c hc
    rcases List.mem_append.1 hc with hc | hc
    · exact Or.inl (hn1 c hc)
    · exact Or.inr (hn2 c hc)
  · intro profiles active certs profile hp hw
    unfold syncToDrive_v4
    rw [hp]
    simp only [hw, List.isEmpty_nil, if_true]
    exact ⟨trivial, by simp⟩

/-- C1, witness for the amended theorem at a concrete state whose single
active-profile certificate is already synced. -/
theorem c1_empty_workset_amended_witness :
    (syncToDrive_v18 envAll annProfiles "p1" [c18synced] []).certs = [c18synced] ∧
    (syncToDrive_v18 envAll annProfiles "p1" [c18synced] []).statuses =
      ["Mirroring Vault to Cloud...", "Vault already in sync!"] ∧
    (syncToDrive_v4 annProfiles "p1" [c4synced]).logs =
      [⟨"Initializing Google Drive Sync for Profile: Ann", LogStatus.info⟩,
       ⟨"Connecting to Drive API...", LogStatus.pending⟩,
       ⟨"Vault is already up to date.", LogStatus.success⟩] := by
  have h1 := c1_empty_workset_amended.1 envAll annProfiles "p1" [c18synced] [] ⟨"p1", "Ann"⟩
    rfl (by decide) (fun _ _ => rfl) (by decide)
  have h2 := c1_empty_workset_amended.2 annProfiles "p1" [c4synced] ⟨"p1", "Ann"⟩
    (by decide) (by decide)
  exact ⟨h1.1, h1.2.1, h2.2⟩

/-! ## Claim C2 -/

/-- The V18 per-record loop under an environment that accepts all folder
operations and all uploads before a failing record: the loop aborts at the
failing record with the single batch error, having marked exactly the records
before it. -/
theorem syncLoopV18_fail (env : DriveEnv) (pfid : String)
    (hf : ∀ n p, env.folderOk n p = true) :
    ∀ (pre : List CertV18) (bad : CertV18) (post certs : List CertV18) (fs : List Folder)
      (calls : List RemoteCall) (sts : List String),
      (∀ c ∈ pre, env.uploadOk c.id = true) → env.uploadOk bad.id = false →
      (syncLoopV18 env pfid (pre ++ bad :: post) certs fs calls sts).errorMsg =
        some "Sync failed: Upload failed" ∧
      (syncLoopV18 env pfid (pre ++ bad :: post) certs fs calls sts).certs =
        pre.foldl (fun cs c => markSyncedV18 c.id cs) certs := by
  intro pre
  induction pre with
  | nil =>
    intro bad post certs fs calls sts _ hbad
    obtain ⟨fid1, ext1, cs1, he1, _, _, _, _, _⟩ :=
      findOrCreateFolder_allok env (getAcademicYear_v18 bad.date) (some pfid) fs (hf _ _)
    obtain ⟨fid2, ext2, cs2, he2, _, _, _, _, _⟩ :=
      findOrCreateFolder_allok env bad.category (some fid1) (fs ++ ext1) (hf _ _)
    rw [List.nil_append, syncLoopV18, he1]
    simp only []
    rw [he2]
    simp only [hbad, Bool.false_eq_true, if_false]
    exact ⟨trivial, rfl⟩
  | cons c pre ih =>
    intro bad post certs fs calls sts hpre hbad
    obtain ⟨fid1, ext1, cs1, he1, _, _, _, _, _⟩ :=
      findOrCreateFolder_allok env (getAcademicYear_v18 c.date) (some pfid) fs (hf _ _)
    obtain ⟨fid2, ext2, cs2, he2, _, _, _, _, _⟩ :=
      findOrCreateFolder_allok env c.category (some fid1) (fs ++ ext1) (hf _ _)
    rw [List.cons_append, syncLoopV18, he1]
    simp only []
    rw [he2]
    simp only [hpre c (List.mem_cons_self c pre), if_true]
    exact ih bad post (markSyncedV18 c.id certs) (fs ++ ext1 ++ ext2)
      (calls ++ cs1 ++ cs2 ++ [RemoteCall.upload c.id fid2])
      (sts ++ ["Vaulting: " ++ c.title ++ "..."])
      (fun d hd => hpre d (List.mem_cons_of_mem c hd)) hbad

/-- C2, counterexample.  With three unsynced records where exactly the upload
of record 2 fails, the claim requires records 1 and 3 to end the batch with
`synced = true` and a per-record error entry naming record 2.  The V18 engine
(`src/unnamed/part_000`) wraps the whole loop in one `try`: record 1 ends
synced, record 2 aborts the whole batch, record 3 stays unsynced, and a single
batch-level error message is surfaced instead of a per-record entry. -/
theorem c2_failure_isolation_counterexample :
    ((syncToDrive_v18 envFailSecond annProfiles "p1" [c18a, c18b, c18c] []).certs.map
      (fun c => c.synced)) = [true, false, false] ∧
    (syncToDrive_v18 envFailSecond annProfiles "p1" [c18a, c18b, c18c] []).errorMsg =
      some "Sync failed: Upload failed" := by
  refine ⟨by decide, by decide⟩

/-- C2, amended.  A non-credential upload failure of one record is caught at
the batch boundary, not the per-record boundary: when the work-set splits as
`pre ++ bad :: post` with every upload in `pre` succeeding and the upload of
`bad` failing (folder operations all succeeding), the engine surfaces the
single batch error `Sync failed: Upload failed`, the records of `pre` end the
batch with `synced = true`, and the failing record and every record after it
are left untouched (`synced` still `false`), available for a future retry. -/
theorem c2_batch_abort_amended (env : DriveEnv) (profiles : List Profile) (active : String)
    (certs : List CertV18) (fs : List Folder) (profile : Profile)
    (pre : List CertV18) (bad : CertV18) (post : List CertV18)
    (hs : env.signedIn = true)
    (hp : profiles.find? (fun p => p.id == active) = some profile)
    (hf : ∀ n p, env.folderOk n p = true)
    (hw : certs.filter (fun c => c.profileId == active && !c.synced) = pre ++ bad :: post)
    (hpre : ∀ c ∈ pre, env.uploadOk c.id = true)
    (hbad : env.uploadOk bad.id = false) :
    (syncToDrive_v18 env profiles active certs fs).errorMsg =
      some "Sync failed: Upload failed" ∧
    (syncToDrive_v18 env profiles active certs fs).certs =
      pre.foldl (fun cs c => markSyncedV18 c.id cs) certs := by
  unfold syncToDrive_v18
  rw [hs]
  simp only [Bool.not_true, Bool.false_eq_true, if_false]
  rw [hp]
  simp only []
  obtain ⟨fid1, ext1, cs1, he1, _, _, _, _, _⟩ :=
    findOrCreateFolder_allok env "CertiVault" none fs (hf _ _)
  rw [he1]
  simp only []
  obtain ⟨fid2, ext2, cs2, he2, _, _, _, _, _⟩ :=
    findOrCreateFolder_allok env profile.name (some fid1) (fs ++ ext1) (hf _ _)
  rw [he2]
  simp only [hw]
  have hne : ((pre ++ bad :: post).isEmpty) = false := by
    cases pre <;> simp [List.isEmpty]
  rw [hne]
  simp only [Bool.false_eq_true, if_false]
  exact syncLoopV18_fail env fid2 hf pre bad post certs (fs ++ ext1 ++ ext2) (cs1 ++ cs2)
    ["Mirroring Vault to Cloud..."] hpre hbad

/-- C2, witness for the amended theorem at the concrete three-record batch in
which only the upload of the second record fails. -/
theorem c2_batch_abort_amended_witness :
    (syncToDrive_v18 envFailSecond annProfiles "p1" [c18a, c18b, c18c] []).errorMsg =
      some "Sync failed: Upload failed" ∧
    (syncToDrive_v18 envFailSecond annProfiles "p1" [c18a, c18b, c18c] []).certs =
      [c18a].foldl (fun cs c => markSyncedV18 c.id cs) [c18a, c18b, c18c] :=
  c2_batch_abort_amended envFailSecond annProfiles "p1" [c18a, c18b, c18c] [] ⟨"p1", "Ann"⟩
    [c18a] c18b [c18c] rfl (by decide) (fun _ _ => rfl) (by decide)
    (by intro c hc; rw [List.mem_singleton] at hc; subst hc; rfl) (by decide)

/-! ## Claims C3 and C7 -/

/-- Summary of a V18 sync invocation in which every remote operation succeeds:
it ends without error, leaves no unsynced active-profile certificate, only
extends the remote store (never duplicating a `(name, parent)` pair), leaves
the root and profile folders resolvable, and issues exactly two root
`findOrCreateFolder` searches plus two searches per work-set record. -/
theorem syncToDrive_v18_allok_analysis (env : DriveEnv) (profiles : List Profile)
    (active : String) (certs : List CertV18) (fs : List Folder) (profile : Profile)
    (hs : env.signedIn = true)
    (hp : profiles.find? (fun p => p.id == active) = some profile)
    (hf : ∀ n p, env.folderOk n p = true)
    (hu : ∀ i, env.uploadOk i = true) :
    ∃ f1 f2 : Folder,
      (syncToDrive_v18 env profiles active certs fs).errorMsg = none ∧
      ((syncToDrive_v18 env profiles active certs fs).certs.filter
        (fun c => c.profileId == active && !c.synced)) = [] ∧
      (∃ ext, (syncToDrive_v18 env profiles active certs fs).folders = fs ++ ext) ∧
      folderLookup "CertiVault" none (syncToDrive_v18 env profiles active certs fs).folders
        = some f1 ∧
      folderLookup profile.name (some f1.id)
        (syncToDrive_v18 env profiles active certs fs).folders = some f2 ∧
      ((syncToDrive_v18 env profiles active certs fs).calls.countP isFindCall =
        2 + 2 * (certs.filter (fun c => c.profileId == active && !c.synced)).length) ∧
      (foldersDistinct fs →
        foldersDistinct (syncToDrive_v18 env profiles active certs fs).folders) := by
  unfold syncToDrive_v18
  rw [hs]
  simp only [Bool.not_true, Bool.false_eq_true, if_false]
  rw [hp]
  simp only []
  obtain ⟨fid1, ext1, cs1, he1, hc1f, _, _, hd1, f1, hlk1, hfid1⟩ :=
    findOrCreateFolder_allok env "CertiVault" none fs (hf _ _)
  rw [he1]
  simp only []
  obtain ⟨fid2, ext2, cs2, he2, hc2f, _, _, hd2, f2, hlk2, hfid2⟩ :=
    findOrCreateFolder_allok env profile.name (some fid1) (fs ++ ext1) (hf _ _)
  rw [he2]
  cases hE : (certs.filter (fun c => c.profileId == active && !c.synced)).isEmpty with
  | true =>
    simp only [if_true]
    have hw : certs.filter (fun c => c.profileId == active && !c.synced) = [] :=
      List.isEmpty_iff.1 hE
    refine ⟨f1, f2, by first | rfl | trivial, by simpa using hw,
      ⟨ext1 ++ ext2, by simp⟩, ?_, ?_, ?_, ?_⟩
    · exact folderLookup_append hlk1 ext2
    · rw [hfid1]; exact hlk2
    · rw [List.countP_append, hc1f, hc2f, hw]
      simp
    · intro h
      exact hd2 (hd1 h)
  | false =>
    simp only [Bool.false_eq_true, if_false]
    obtain ⟨herr, hcerts, ⟨ext3, hfold⟩, hfind, _, hdist⟩ :=
      syncLoopV18_allok env fid2 hf hu
        (certs.filter (fun c => c.profileId == active && !c.synced)) certs
        (fs ++ ext1 ++ ext2) (cs1 ++ cs2) ["Mirroring Vault to Cloud..."]
    refine ⟨f1, f2, herr, ?_, ⟨ext1 ++ ext2 ++ ext3, by rw [hfold]; simp⟩, ?_, ?_, ?_, ?_⟩
    · rw [hcerts]
      exact workset_cleared certs active
    · rw [hfold]
      exact folderLookup_append (folderLookup_append hlk1 ext2) ext3
    · rw [hfold, hfid1]
      exact folderLookup_append hlk2 ext3
    · rw [hfind, List.countP_append, hc1f, hc2f]
    · intro h
      exact hdist (hd2 (hd1 h))

/-- A V18 invocation on a state whose work-set is empty and whose remote store
already resolves the two root folders: nothing changes and exactly the two
root searches are recorded. -/
theorem syncToDrive_v18_resolved (env : DriveEnv) (profiles : List Profile) (active : String)
    (certs2 : List CertV18) (fs2 : List Folder) (profile : Profile) (f1 f2 : Folder)
    (hs : env.signedIn = true)
    (hp : profiles.find? (fun p => p.id == active) = some profile)
    (hf : ∀ n p, env.folderOk n p = true)
    (hclear : certs2.filter (fun c => c.profileId == active && !c.synced) = [])
    (hlk1 : folderLookup "CertiVault" none fs2 = some f1)
    (hlk2 : folderLookup profile.name (some f1.id) fs2 = some f2) :
    syncToDrive_v18 env profiles active certs2 fs2 =
      ⟨certs2, fs2,
       [RemoteCall.findFolder "CertiVault" none,
        RemoteCall.findFolder profile.name (some f1.id)],
       ["Mirroring Vault to Cloud...", "Vault already in sync!"], none⟩ := by
  unfold syncToDrive_v18
  rw [hs]
  simp only [Bool.not_true, Bool.false_eq_true, if_false]
  rw [hp]
  simp only []
  have hr1 : findOrCreateFolder env "CertiVault" none fs2 =
      some (f1.id, fs2, [RemoteCall.findFolder "CertiVault" none]) := by
    unfold findOrCreateFolder
    rw [if_pos (hf _ _), hlk1]
  rw [hr1]
  simp only []
  have hr2 : findOrCreateFolder env profile.name (some f1.id) fs2 =
      some (f2.id, fs2, [RemoteCall.findFolder profile.name (some f1.id)]) := by
    unfold findOrCreateFolder
    rw [if_pos (hf _ _), hlk2]
  rw [hr2]
  simp only [hclear, List.isEmpty_nil, if_true]
  simp

/-- C3, counterexample.  The claim requires the second invocation to perform
zero `findOrCreateFolder` calls.  The V18 engine performs the two
root-establishment searches (`CertiVault`, then the profile folder) on every
invocation, before the work-set is even inspected: at a concrete state with
one record, fully synced by a first run, the second run records two
`findFolder` calls. -/
theorem c3_idempotence_counterexample :
    ((syncToDrive_v18 envAll annProfiles "p1"
        (syncToDrive_v18 envAll annProfiles "p1" [c18a] []).certs
        (syncToDrive_v18 envAll annProfiles "p1" [c18a] []).folders).calls.countP
      isFindCall) = 2 ∧
    ¬ ((syncToDrive_v18 envAll annProfiles "p1"
        (syncToDrive_v18 envAll annProfiles "p1" [c18a] []).certs
        (syncToDrive_v18 envAll annProfiles "p1" [c18a] []).folders).calls.countP
      isFindCall) = 0 := by
  refine ⟨by decide, by decide⟩

/-- C3, amended.  Running the V18 engine twice in a row with no intervening
local edits and an environment in which every remote call succeeds is a no-op
the second time except for root establishment: the second invocation performs
exactly the two root-establishment `findOrCreateFolder` searches (both of
which find the existing folders, creating nothing) and zero `uploadFile`
calls, changes no certificate, adds no remote folder (so no duplicate folders
and no duplicate uploads are created), and ends without error. -/
theorem c3_second_run_amended (env : DriveEnv) (profiles : List Profile) (active : String)
    (certs : List CertV18) (fs : List Folder) (profile : Profile)
    (hs : env.signedIn = true)
    (hp : profiles.find? (fun p => p.id == active) = some profile)
    (hf : ∀ n p, env.folderOk n p = true)
    (hu : ∀ i, env.uploadOk i = true) :
    (syncToDrive_v18 env profiles active
        (syncToDrive_v18 env profiles active certs fs).certs
        (syncToDrive_v18 env profiles active certs fs).folders).certs =
      (syncToDrive_v18 env profiles active certs fs).certs ∧
    (syncToDrive_v18 env profiles active
        (syncToDrive_v18 env profiles active certs fs).certs
        (syncToDrive_v18 env profiles active certs fs).folders).folders =
      (syncToDrive_v18 env profiles active certs fs).folders ∧
    (syncToDrive_v18 env profiles active
        (syncToDrive_v18 env profiles active certs fs).certs
        (syncToDrive_v18 env profiles active certs fs).folders).errorMsg = none ∧
    (∃ rid, (syncToDrive_v18 env profiles active
        (syncToDrive_v18 env profiles active certs fs).certs
        (syncToDrive_v18 env profiles active certs fs).folders).calls =
      [RemoteCall.findFolder "CertiVault" none,
       RemoteCall.findFolder profile.name (some rid)]) := by
  obtain ⟨f1, f2, _, hclear, _, hlk1, hlk2, _, _⟩ :=
    syncToDrive_v18_allok_analysis env profiles active certs fs profile hs hp hf hu
  rw [syncToDrive_v18_resolved env profiles active
    (syncToDrive_v18 env profiles active certs fs).certs
    (syncToDrive_v18 env profiles active certs fs).folders profile f1 f2
    hs hp hf hclear hlk1 hlk2]
  exact ⟨rfl, rfl, rfl, f1.id, rfl⟩

/-- C3, witness for the amended theorem: a first run over one unsynced record,
then a second run over its output. -/
theorem c3_second_run_amended_witness :
    (syncToDrive_v18 envAll annProfiles "p1"
        (syncToDrive_v18 envAll annProfiles "p1" [c18a] []).certs
        (syncToDrive_v18 envAll annProfiles "p1" [c18a] []).folders).certs =
      (syncToDrive_v18 envAll annProfiles "p1" [c18a] []).certs ∧
    (syncToDrive_v18 envAll annProfiles "p1"
        (syncToDrive_v18 envAll annProfiles "p1" [c18a] []).certs
        (syncToDrive_v18 envAll annProfiles "p1" [c18a] []).folders).folders =
      (syncToDrive_v18 envAll annProfiles "p1" [c18a] []).folders ∧
    (syncToDrive_v18 envAll annProfiles "p1"
        (syncToDrive_v18 envAll annProfiles "p1" [c18a] []).certs
        (syncToDrive_v18 envAll annProfiles "p1" [c18a] []).folders).errorMsg = none ∧
    (∃ rid, (syncToDrive_v18 envAll annProfiles "p1"
        (syncToDrive_v18 envAll annProfiles "p1" [c18a] []).certs
        (syncToDrive_v18 envAll annProfiles "p1" [c18a] []).folders).calls =
      [RemoteCall.findFolder "CertiVault" none,
       RemoteCall.findFolder "Ann" (some rid)]) :=
  c3_second_run_amended envAll annProfiles "p1" [c18a] [] ⟨"p1", "Ann"⟩ rfl (by decide)
    (fun _ _ => rfl) (fun _ => rfl)

/-- Search calls addressed at a particular folder name. -/
def isFindNamed (n : String) : RemoteCall → Bool
  | RemoteCall.findFolder m _ => m == n
  | _ => false

/-- C7, counterexample.  The claim requires a single batch with two records on
the same `(period, category)` path to trigger exactly one `findOrCreateFolder`
call for the year folder and one for the category folder.  The V18 loop calls
`findOrCreateFolder` afresh for every record (lines 308-309 of
`src/unnamed/part_000`), with no cache: for the two fixtures sharing the path
`2024-2025/Sports` the trace holds two searches for the year-folder name and
two for the category name. -/
theorem c7_folder_dedup_counterexample :
    ((syncToDrive_v18 envAll annProfiles "p1" [c18a, c18b] []).calls.countP
      (isFindNamed "2024-2025")) = 2 ∧
    ((syncToDrive_v18 envAll annProfiles "p1" [c18a, c18b] []).calls.countP
      (isFindNamed "Sports")) = 2 := by
  refine ⟨by decide, by decide⟩

/-- C7, amended.  Within one V18 invocation, folder lookups are re-issued per
record rather than cached: with every remote call succeeding, a batch records
exactly `2 + 2·n` `findFolder` searches, where `n` is the size of the
work-set — the two root-establishment searches plus one year-folder and one
category-folder search per record (so two same-path records cause two year
searches and two category searches).  The searches are nevertheless
idempotent: find-before-create keeps the remote store free of duplicate
`(name, parent)` folders. -/
theorem c7_folder_lookups_amended (env : DriveEnv) (profiles : List Profile) (active : String)
    (certs : List CertV18) (fs : List Folder) (profile : Profile)
    (hs : env.signedIn = true)
    (hp : profiles.find? (fun p => p.id == active) = some profile)
    (hf : ∀ n p, env.folderOk n p = true)
    (hu : ∀ i, env.uploadOk i = true) :
    ((syncToDrive_v18 env profiles active certs fs).calls.countP isFindCall =
      2 + 2 * (certs.filter (fun c => c.profileId == active && !c.synced)).length) ∧
    (foldersDistinct fs →
      foldersDistinct (syncToDrive_v18 env profiles active certs fs).folders) := by
  obtain ⟨f1, f2, _, _, _, _, _, hcount, hdist⟩ :=
    syncToDrive_v18_allok_analysis env profiles active certs fs profile hs hp hf hu
  exact ⟨hcount, hdist⟩

/-- C7, witness for the amended theorem at the two same-path fixtures:
`2 + 2·2 = 6` searches, and the store stays duplicate-free. -/
theorem c7_folder_lookups_amended_witness :
    ((syncToDrive_v18 envAll annProfiles "p1" [c18a, c18b] []).calls.countP isFindCall =
      2 + 2 * ([c18a, c18b].filter (fun c => c.profileId == "p1" && !c.synced)).length) ∧
    foldersDistinct (syncToDrive_v18 envAll annProfiles "p1" [c18a, c18b] []).folders := by
  have h := c7_folder_lookups_amended envAll annProfiles "p1" [c18a, c18b] [] ⟨"p1", "Ann"⟩
    rfl (by decide) (fun _ _ => rfl) (fun _ => rfl)
  exact ⟨h.1, h.2 (by simp [foldersDistinct])⟩

/-- C4, witness: the invariant applied to the single-item sync at a concrete
certificate. -/
theorem c4_synced_flag_invariant_witness :
    (syncSingleItem_v4 c4synced [c4synced]).certs =
      [c4synced].map (setSyncedInV4 [c4synced.id]) :=
  c4_synced_flag_invariant.2.2.2 c4synced [c4synced]

/-! ## Claim C9 -/

theorem contains_or_any (l : List String) (a b : String) :
    (l.contains a || l.contains b) = l.any (fun t => t == a || t == b) := by
  induction l with
  | nil => rfl
  | cons h t ih =>
    rw [contains_cons, contains_cons, List.any_cons, ← ih]
    have hab : (a == h) = (h == a) := by
      by_cases hx : a = h <;> simp [beq_iff_eq, hx, eq_comm]
    have hbb : (b == h) = (h == b) := by
      by_cases hx : b = h <;> simp [beq_iff_eq, hx, eq_comm]
    rw [hab, hbb]
    cases h == a <;> cases h == b <;> cases t.contains a <;> cases t.contains b <;> rfl

/-- C9.  With at least one filter tag selected and no text query, the record
filter of both variants returns exactly the active-profile records that match
at least one selected tag, with a single OR across all selected tags: in V4 a
tag matches a record when it equals the academic period, equals the category,
or occurs in the tag list; in V15 (whose records carry no tag list) when it
equals the category or the academic period.  In particular, selecting a year
and a category returns records matching either one, not only records matching
both. -/
theorem c9_filter_or_semantics :
    (∀ (certs : List CertV4) (active : String) (tags : List String),
      tags ≠ [] →
      filteredCerts_v4 certs active "" tags =
        certs.filter (fun c => c.profileId == active &&
          tags.any (fun tag => tag == getAcademicYear_v4 c.date || tag == c.category ||
            c.tags.contains tag))) ∧
    (∀ (certs : List CertV15) (active : String) (tags : List String),
      tags ≠ [] →
      filteredCerts_v15 certs active "" tags =
        certs.filter (fun c => c.profileId == active &&
          tags.any (fun tag => tag == getAcademicYear_v15 c.date || tag == c.category))) := by
  constructor
  · intro certs active tags hne
    unfold filteredCerts_v4
    have htrim : (jsTrim "" != "") = false := by decide
    rw [htrim]
    simp only [Bool.false_eq_true, if_false]
    have hlen : tags.length > 0 := List.length_pos.2 hne
    rw [if_pos hlen, List.filter_filter]
    refine List.filter_congr (fun c _ => ?_)
    rw [Bool.and_comm]
  · intro certs active tags hne
    unfold filteredCerts_v15
    have htrim : (jsTrim "" != "") = false := by decide
    rw [htrim]
    simp only [Bool.false_eq_true, if_false]
    have hlen : tags.length > 0 := List.length_pos.2 hne
    rw [if_pos hlen, List.filter_filter]
    refine List.filter_congr (fun c _ => ?_)
    rw [Bool.or_comm, contains_or_any, Bool.and_comm]

/-- V4 fixture matching only the category tag of the C9 witness. -/
def c4Sports : CertV4 :=
  ⟨"a1", "img", none, "p1", "S", "TA", "I", "2020-01-05", "Sports", "Subj", "Sum", [], 0, false⟩

/-- V4 fixture matching only the year tag of the C9 witness. -/
def c4Arts : CertV4 :=
  ⟨"a2", "img", none, "p1", "S", "TB", "I", "2023-10-10", "Arts", "Subj", "Sum", [], 0, false⟩

/-- C9, witness: selecting the year `2023-2024` and the category `Sports`
returns both a record matching only the category and a record matching only
the year. -/
theorem c9_filter_or_semantics_witness :
    filteredCerts_v4 [c4Sports, c4Arts] "p1" "" ["2023-2024", "Sports"] =
      [c4Sports, c4Arts].filter (fun c => c.profileId == "p1" &&
        (["2023-2024", "Sports"] : List String).any
          (fun tag => tag == getAcademicYear_v4 c.date || tag == c.category ||
            c.tags.contains tag)) ∧
    filteredCerts_v4 [c4Sports, c4Arts] "p1" "" ["2023-2024", "Sports"] =
      [c4Sports, c4Arts] := by
  have h := c9_filter_or_semantics.1 [c4Sports, c4Arts] "p1" ["2023-2024", "Sports"]
    (by decide)
  exact ⟨h, by decide⟩

end CertiVault
